import Mathlib

set_option autoImplicit false
set_option linter.unusedVariables false

namespace Cloudhand

/-! Shallow embedding of the cloudhand core pipeline (models.py, core/spec.py,
core/apply.py, core/scan.py, terraform_gen.py, adapters/deployer.py).
Python dictionaries are modelled as insertion-ordered association lists,
Python sets as insertion-ordered duplicate-free lists whose iteration order
is abstracted by a choice function. -/

/-- Python string truthiness fallback: the expression s or d, where a missing
or empty string falls back to the default. -/
def pyOrStr (o : Option String) (d : String) : String :=
  match o with
  | some s => if s = "" then d else s
  | none => d

/-- Lookup in an insertion-ordered string-keyed dictionary. -/
def dictGet {α : Type} (d : List (String × α)) (k : String) : Option α :=
  match d with
  | [] => none
  | (k', v) :: rest => if k' = k then some v else dictGet rest k

/-- Python dict assignment d[k] = v: update in place when the key is present,
append otherwise (insertion order preserved). -/
def dictSet {α : Type} (d : List (String × α)) (k : String) (v : α) :
    List (String × α) :=
  match d with
  | [] => [(k, v)]
  | (k', v') :: rest =>
    if k' = k then (k', v) :: rest else (k', v') :: dictSet rest k v

/-- Python membership test k in d for a dictionary. -/
def dictContains {α : Type} (d : List (String × α)) (k : String) : Bool :=
  (dictGet d k).isSome

/-- Python dict.setdefault: insert only when the key is absent. -/
def dictSetdefault {α : Type} (d : List (String × α)) (k : String) (v : α) :
    List (String × α) :=
  if dictContains d k then d else d ++ [(k, v)]

/-- Values of a dictionary in insertion order. -/
def dictValues {α : Type} (d : List (String × α)) : List α :=
  d.map Prod.snd

/-- Python set.add modelled on an insertion-ordered duplicate-free list. -/
def setInsert (l : List String) (s : String) : List String :=
  if l.contains s then l else l ++ [s]

/-! Data model (models.py). -/

/-- NodeType enumeration from models.py. -/
inductive NodeType where
  | computeInstance
  | loadBalancer
  | network
  | subnet
  | firewall
  | volume
  | ipAddress
  | dnsRecord
  deriving DecidableEq, Repr

/-- String value of a NodeType (the str-enum value in models.py). -/
def NodeType.value : NodeType → String
  | .computeInstance => "ComputeInstance"
  | .loadBalancer => "LoadBalancer"
  | .network => "Network"
  | .subnet => "Subnet"
  | .firewall => "Firewall"
  | .volume => "Volume"
  | .ipAddress => "IpAddress"
  | .dnsRecord => "DnsRecord"

/-- EdgeType enumeration from models.py. -/
inductive EdgeType where
  | attachedTo
  | inNetwork
  | protectedBy
  | targets
  | resolvesTo
  deriving DecidableEq, Repr

/-- String value of an EdgeType (the str-enum value in models.py). -/
def EdgeType.value : EdgeType → String
  | .attachedTo => "attached_to"
  | .inNetwork => "in_network"
  | .protectedBy => "protected_by"
  | .targets => "targets"
  | .resolvesTo => "resolves_to"

/-- Node model from models.py. -/
structure Node where
  id : String
  type : NodeType
  name : Option String := none
  region : Option String := none
  zone : Option String := none
  provider : Option String := none
  provider_native_id : Option String := none
  labels : List (String × String) := []
  attrs : List (String × String) := []
  deriving DecidableEq, Repr

/-- Edge model from models.py (from-id, to-id, type). -/
structure Edge where
  from_id : String
  to_id : String
  type : EdgeType
  deriving DecidableEq, Repr

/-- CloudGraph model from models.py: ordered node and edge lists. -/
structure CloudGraph where
  nodes : List Node := []
  edges : List Edge := []
  deriving DecidableEq, Repr

/-- RuntimeType enumeration from models.py. -/
inductive RuntimeType where
  | docker
  | nodejs
  | python
  | staticFiles
  | go
  deriving DecidableEq, Repr

/-- String value of a RuntimeType. -/
def RuntimeType.value : RuntimeType → String
  | .docker => "docker"
  | .nodejs => "nodejs"
  | .python => "python"
  | .staticFiles => "static"
  | .go => "go"

/-- ServiceSpec model from models.py. -/
structure ServiceSpec where
  command : String
  environment : List (String × String) := []
  environment_file : Option String := none
  environment_file_upload : Option String := none
  ports : List Int := []
  server_names : List String := []
  https : Bool := false
  deriving DecidableEq, Repr

/-- BuildSpec model from models.py. -/
structure BuildSpec where
  install_command : Option String := none
  build_command : Option String := none
  system_packages : List String := []
  deriving DecidableEq, Repr

/-- ApplicationSpec model from models.py. -/
structure ApplicationSpec where
  name : String
  repo_url : String
  branch : String := "main"
  runtime : RuntimeType
  build_config : BuildSpec
  service_config : ServiceSpec
  destination_path : String := "/opt/apps"
  deriving DecidableEq, Repr

/-- NetworkSpec model from models.py. -/
structure NetworkSpec where
  name : String
  cidr : String
  deriving DecidableEq, Repr

/-- UnattendedUpgradesPolicy model from models.py. -/
structure UnattendedUpgradesPolicy where
  enabled : Bool := true
  allowed_origins : List String :=
    ["$\x7bdistro_id\x7d:$\x7bdistro_codename\x7d-security",
     "$\x7bdistro_id\x7dESMApps:$\x7bdistro_codename\x7d-apps-security",
     "$\x7bdistro_id\x7dESM:$\x7bdistro_codename\x7d-infra-security"]
  auto_reboot : Bool := false
  auto_reboot_time : String := "04:00"
  deriving DecidableEq, Repr

/-- MaintenancePolicy model from models.py. -/
structure MaintenancePolicy where
  unattended_upgrades : UnattendedUpgradesPolicy := {}
  deriving DecidableEq, Repr

/-- InstanceSpec model from models.py. -/
structure InstanceSpec where
  name : String
  size : String
  network : String
  region : Option String := none
  labels : List (String × String) := []
  workloads : List ApplicationSpec := []
  maintenance : Option MaintenancePolicy := none
  deriving DecidableEq, Repr

/-- LoadBalancerPortSpec model from models.py. -/
structure LoadBalancerPortSpec where
  port : Int
  protocol : String
  deriving DecidableEq, Repr

/-- LoadBalancerTargetSpec model from models.py. -/
structure LoadBalancerTargetSpec where
  type : String
  selector : String
  deriving DecidableEq, Repr

/-- LoadBalancerSpec model from models.py. -/
structure LoadBalancerSpec where
  name : String
  network : String
  ports : List LoadBalancerPortSpec := []
  targets : List LoadBalancerTargetSpec := []
  deriving DecidableEq, Repr

/-- FirewallRuleSpec model from models.py. -/
structure FirewallRuleSpec where
  direction : String
  protocol : String
  port : Option String := none
  cidr : Option String := none
  deriving DecidableEq, Repr

/-- FirewallTargetSpec model from models.py. -/
structure FirewallTargetSpec where
  type : String
  selector : String
  deriving DecidableEq, Repr

/-- FirewallSpec model from models.py. -/
structure FirewallSpec where
  name : String
  rules : List FirewallRuleSpec := []
  targets : List FirewallTargetSpec := []
  deriving DecidableEq, Repr

/-- DnsRecordSpec model from models.py. -/
structure DnsRecordSpec where
  zone : String
  name : String
  type : String
  target : String
  deriving DecidableEq, Repr

/-- ContainerPortSpec model from models.py. -/
structure ContainerPortSpec where
  container_port : Int
  host_port : Option Int := none
  deriving DecidableEq, Repr

/-- ContainerVolumeSpec model from models.py. -/
structure ContainerVolumeSpec where
  host_path : String
  container_path : String
  deriving DecidableEq, Repr

/-- ContainerEnvVar model from models.py. -/
structure ContainerEnvVar where
  name : String
  value : String
  deriving DecidableEq, Repr

/-- ContainerSpec model from models.py. -/
structure ContainerSpec where
  name : String
  image : String
  host_selector : String
  ports : List ContainerPortSpec := []
  env : List ContainerEnvVar := []
  volumes : List ContainerVolumeSpec := []
  restart_policy : String := "always"
  deriving DecidableEq, Repr

/-- DesiredStateSpec model from models.py. -/
structure DesiredStateSpec where
  provider : String
  region : Option String := none
  networks : List NetworkSpec := []
  instances : List InstanceSpec := []
  load_balancers : List LoadBalancerSpec := []
  firewalls : List FirewallSpec := []
  dns_records : List DnsRecordSpec := []
  containers : List ContainerSpec := []
  deriving DecidableEq, Repr

/-! Graph-to-spec compiler (core/spec.py, graph_to_spec). -/

/-- One iteration of the network-collection loop of graph_to_spec. -/
def networksStep (nets : List (String × NetworkSpec)) (node : Node) :
    List (String × NetworkSpec) :=
  if node.type.value = "Network" then
    dictSet nets node.id
      { name := pyOrStr node.name node.id
        cidr := pyOrStr (dictGet node.attrs "ip_range") "10.0.0.0/24" }
  else nets

/-- First phase of graph_to_spec: collect Network nodes into a dictionary of
NetworkSpec keyed by node id. -/
def buildNetworks (nodes : List Node) : List (String × NetworkSpec) :=
  nodes.foldl networksStep []

/-- One iteration of the edge loop of graph_to_spec. -/
def serverNetStep (nets : List (String × NetworkSpec))
    (sn : List (String × String)) (edge : Edge) : List (String × String) :=
  if edge.type.value = "in_network" then
    match dictGet nets edge.to_id with
    | some ns => dictSet sn edge.from_id ns.name
    | none => sn
  else sn

/-- Second phase of graph_to_spec: map server id to network name via
in_network edges; each later edge overwrites the dictionary entry. -/
def buildServerNetwork (nets : List (String × NetworkSpec))
    (edges : List Edge) : List (String × String) :=
  edges.foldl (serverNetStep nets) []

/-- Mutable state threaded through the ComputeInstance loop of graph_to_spec. -/
structure SpecLoopState where
  nets : List (String × NetworkSpec)
  regions : List String
  insts : List InstanceSpec
  deriving Repr

/-- One iteration of the ComputeInstance loop of graph_to_spec. -/
def specLoopStep (serverNetwork : List (String × String))
    (st : SpecLoopState) (node : Node) : SpecLoopState :=
  if node.type.value = "ComputeInstance" then
    let netName := (dictGet serverNetwork node.id).getD "default"
    let nets :=
      if ((dictValues st.nets).map NetworkSpec.name).contains netName then
        st.nets
      else
        dictSetdefault st.nets ("synthetic:" ++ netName)
          { name := netName, cidr := "10.0.0.0/24" }
    let size := pyOrStr (dictGet node.attrs "server_type") "cx21"
    let regions :=
      match node.region with
      | some r => if r = "" then st.regions else setInsert st.regions r
      | none => st.regions
    let inst : InstanceSpec :=
      { name := pyOrStr node.name node.id
        size := size
        network := netName
        region := node.region
        labels := node.labels }
    { nets := nets, regions := regions, insts := st.insts ++ [inst] }
  else st

/-- Validity of a choice function modelling iteration over a Python set:
next(iter(s)) returns some element of the set, and iterating an empty set
yields nothing. The concrete element returned by CPython depends on the
randomized string hash seed, so it is abstracted. -/
def ValidPick (pick : List String → Option String) : Prop :=
  pick [] = none ∧ ∀ l : List String, l ≠ [] → ∃ x ∈ l, pick l = some x

/-- Embedding of graph_to_spec from core/spec.py. The pick argument models
the iteration order of the Python set used for regions. -/
def graph_to_spec (pick : List String → Option String) (graph : CloudGraph)
    (provider : String) : DesiredStateSpec :=
  let networks0 := buildNetworks graph.nodes
  let serverNetwork := buildServerNetwork networks0 graph.edges
  let final := graph.nodes.foldl (specLoopStep serverNetwork)
    { nets := networks0, regions := [], insts := [] }
  { provider := provider
    region := pick final.regions
    networks := dictValues final.nets
    instances := final.insts }

/-! Helper notions for stating the graph_to_spec claims. -/

/-- Property of an edge that actually contributes to the server-network map:
an in_network edge from server s to a network known to the dictionary. -/
def EdgeResolves (nets : List (String × NetworkSpec)) (s : String)
    (e : Edge) : Prop :=
  e.type.value = "in_network" ∧ dictContains nets e.to_id = true ∧ e.from_id = s

instance (nets : List (String × NetworkSpec)) (s : String) (e : Edge) :
    Decidable (EdgeResolves nets s e) := by
  unfold EdgeResolves; infer_instance

/-- Name of the network an edge points to (empty when unknown). -/
def edgeNetName (nets : List (String × NetworkSpec)) (e : Edge) : String :=
  ((dictGet nets e.to_id).map NetworkSpec.name).getD ""

/-- Last edge of the list that resolves server s to a known network. -/
def lastResolving (nets : List (String × NetworkSpec)) (s : String) :
    List Edge → Option Edge
  | [] => none
  | e :: es =>
    match lastResolving nets s es with
    | some e' => some e'
    | none => if EdgeResolves nets s e then some e else none

/-- First edge of the list that resolves server s to a known network
(what the claim says graph_to_spec prefers). -/
def firstResolving (nets : List (String × NetworkSpec)) (s : String) :
    List Edge → Option Edge
  | [] => none
  | e :: es =>
    if EdgeResolves nets s e then some e else firstResolving nets s es

/-- Network name the claim (spec wording) expects for server s: the network
of the first in_network edge to a known network. -/
def claimFirstNet (g : CloudGraph) (s : String) : Option String :=
  (firstResolving (buildNetworks g.nodes) s g.edges).map
    (edgeNetName (buildNetworks g.nodes))

/-- InstanceSpec that graph_to_spec actually emits for a ComputeInstance
node, with the network resolved by the last contributing edge. -/
def resolvedInstance (g : CloudGraph) (node : Node) : InstanceSpec :=
  { name := pyOrStr node.name node.id
    size := pyOrStr (dictGet node.attrs "server_type") "cx21"
    network :=
      match lastResolving (buildNetworks g.nodes) node.id g.edges with
      | some e => edgeNetName (buildNetworks g.nodes) e
      | none => "default"
    region := node.region
    labels := node.labels }

/-- InstanceSpec emitted by the loop as a function of the precomputed
server-network dictionary. -/
def instFor (serverNetwork : List (String × String)) (node : Node) :
    InstanceSpec :=
  { name := pyOrStr node.name node.id
    size := pyOrStr (dictGet node.attrs "server_type") "cx21"
    network := (dictGet serverNetwork node.id).getD "default"
    region := node.region
    labels := node.labels }

/-- Regions accumulated by one loop iteration. -/
def regionStep (rs : List String) (node : Node) : List String :=
  if node.type.value = "ComputeInstance" then
    match node.region with
    | some r => if r = "" then rs else setInsert rs r
    | none => rs
  else rs

/-- Region value the claim (spec wording) expects: the region of the first
ComputeInstance node, in graph node order, that has a nonempty region. -/
def claimFirstRegion (g : CloudGraph) : Option String :=
  ((g.nodes.filter (fun n => n.type.value == "ComputeInstance")).filterMap
    (fun n =>
      match n.region with
      | some r => if r = "" then none else some r
      | none => none)).head?

/-- Whether a node id carries the synthetic-network key shape used
internally by graph_to_spec. -/
def syntheticId (s : String) : Bool :=
  "synthetic:".data.isPrefixOf s.data

/-! Dictionary lemmas. -/

theorem dictGet_dictSet_self {α : Type} (d : List (String × α)) (k : String)
    (v : α) : dictGet (dictSet d k v) k = some v := by
  induction d with
  | nil => simp [dictSet, dictGet]
  | cons p rest ih =>
    obtain ⟨k', v'⟩ := p
    by_cases h : k' = k
    · simp [dictSet, dictGet, h]
    · simp [dictSet, dictGet, h, ih]

theorem dictGet_dictSet_ne {α : Type} (d : List (String × α))
    (k k' : String) (v : α) (h : k' ≠ k) :
    dictGet (dictSet d k' v) k = dictGet d k := by
  induction d with
  | nil => simp [dictSet, dictGet, h]
  | cons p rest ih =>
    obtain ⟨k0, v0⟩ := p
    by_cases h0 : k0 = k'
    · subst h0
      simp [dictSet, dictGet, h]
    · by_cases h1 : k0 = k
      · subst h1
        simp [dictSet, dictGet, h0, Ne.symm h, ih]
      · simp [dictSet, dictGet, h0, h1, ih]

theorem dictGet_mem {α : Type} {d : List (String × α)} {k : String} {v : α}
    (h : dictGet d k = some v) : (k, v) ∈ d := by
  induction d with
  | nil => simp [dictGet] at h
  | cons p rest ih =>
    obtain ⟨k0, v0⟩ := p
    by_cases h0 : k0 = k
    · subst h0
      simp [dictGet] at h
      simp [h]
    · simp [dictGet, h0] at h
      exact List.mem_cons_of_mem _ (ih h)

theorem mem_dictSet {α : Type} {d : List (String × α)} {k k' : String}
    {v v' : α} (h : (k, v) ∈ dictSet d k' v') :
    (k = k' ∧ v = v') ∨ (k, v) ∈ d := by
  induction d with
  | nil =>
    simp [dictSet] at h
    exact Or.inl h
  | cons p rest ih =>
    obtain ⟨k0, v0⟩ := p
    by_cases h0 : k0 = k'
    · subst h0
      simp [dictSet] at h
      rcases h with h | h
      · exact Or.inl ⟨h.1.symm ▸ rfl, h.2⟩
      · exact Or.inr (List.mem_cons_of_mem _ h)
    · simp [dictSet, h0] at h
      rcases h with h | h
      · exact Or.inr (by simp [h])
      · rcases ih h with h' | h'
        · exact Or.inl h'
        · exact Or.inr (List.mem_cons_of_mem _ h')

theorem mem_setInsert {l : List String} {s x : String} :
    x ∈ setInsert l s ↔ x ∈ l ∨ x = s := by
  by_cases h : l.contains s
  · have hs : s ∈ l := by
      simpa using h
    simp only [setInsert, h, if_pos]
    constructor
    · exact Or.inl
    · rintro (hx | rfl)
      · exact hx
      · exact hs
  · have hs : s ∉ l := by simpa using h
    simp [setInsert, hs]

theorem setInsert_ne_nil (l : List String) (s : String) :
    setInsert l s ≠ [] := by
  by_cases h : l.contains s
  · have hs : s ∈ l := by simpa using h
    intro hl
    rw [setInsert] at hl
    simp [hs] at hl
    rw [hl] at hs
    simp at hs
  · have hs : s ∉ l := by simpa using h
    simp [setInsert, hs]

/-! Characterization of the server-network dictionary: a lookup returns the
network of the last contributing edge, because each later assignment
overwrites the earlier one. -/

theorem dictGet_serverNetStep (nets : List (String × NetworkSpec))
    (sn : List (String × String)) (e : Edge) (s : String) :
    dictGet (serverNetStep nets sn e) s =
      if EdgeResolves nets s e then some (edgeNetName nets e)
      else dictGet sn s := by
  by_cases ht : e.type.value = "in_network"
  · cases hg : dictGet nets e.to_id with
    | none =>
      have : ¬ EdgeResolves nets s e := by
        simp [EdgeResolves, dictContains, hg]
      simp [serverNetStep, ht, hg, this]
    | some ns =>
      by_cases hf : e.from_id = s
      · have : EdgeResolves nets s e := ⟨ht, by simp [dictContains, hg], hf⟩
        simp [serverNetStep, ht, hg, this, edgeNetName, hf,
          dictGet_dictSet_self]
      · have : ¬ EdgeResolves nets s e := by
          simp [EdgeResolves, hf]
        simp [serverNetStep, ht, hg, this, dictGet_dictSet_ne _ _ _ _ hf]
  · have : ¬ EdgeResolves nets s e := by
      simp [EdgeResolves, ht]
    simp [serverNetStep, ht, this]

theorem dictGet_foldl_serverNetStep (nets : List (String × NetworkSpec))
    (edges : List Edge) (sn : List (String × String)) (s : String) :
    dictGet (edges.foldl (serverNetStep nets) sn) s =
      match lastResolving nets s edges with
      | some e => some (edgeNetName nets e)
      | none => dictGet sn s := by
  induction edges generalizing sn with
  | nil => simp [lastResolving]
  | cons e es ih =>
    rw [List.foldl_cons, ih]
    cases hl : lastResolving nets s es with
    | some e' => simp [lastResolving, hl]
    | none =>
      by_cases hr : EdgeResolves nets s e
      · simp [lastResolving, hl, hr, dictGet_serverNetStep]
      · simp [lastResolving, hl, hr, dictGet_serverNetStep]

theorem dictGet_buildServerNetwork (g : CloudGraph) (s : String) :
    dictGet (buildServerNetwork (buildNetworks g.nodes) g.edges) s =
      (lastResolving (buildNetworks g.nodes) s g.edges).map
        (edgeNetName (buildNetworks g.nodes)) := by
  rw [buildServerNetwork, dictGet_foldl_serverNetStep]
  cases lastResolving (buildNetworks g.nodes) s g.edges with
  | some e => simp
  | none => simp [dictGet]

/-! Characterization of the ComputeInstance loop: emitted instances are a
map over the compute nodes, the accumulated regions are a fold that only
looks at the previous regions. -/

theorem foldl_specLoopStep_insts (sn : List (String × String))
    (nodes : List Node) (st : SpecLoopState) :
    (nodes.foldl (specLoopStep sn) st).insts =
      st.insts ++
        (nodes.filter (fun n => n.type.value == "ComputeInstance")).map
          (instFor sn) := by
  induction nodes generalizing st with
  | nil => simp
  | cons n ns ih =>
    by_cases hc : n.type.value = "ComputeInstance"
    · rw [List.foldl_cons, ih]
      simp [specLoopStep, hc, instFor]
    · rw [List.foldl_cons, ih]
      simp [specLoopStep, hc]

theorem foldl_specLoopStep_regions (sn : List (String × String))
    (nodes : List Node) (st : SpecLoopState) :
    (nodes.foldl (specLoopStep sn) st).regions =
      nodes.foldl regionStep st.regions := by
  induction nodes generalizing st with
  | nil => simp
  | cons n ns ih =>
    by_cases hc : n.type.value = "ComputeInstance"
    · rw [List.foldl_cons, ih, List.foldl_cons]
      simp [specLoopStep, hc, regionStep]
    · rw [List.foldl_cons, ih, List.foldl_cons]
      simp [specLoopStep, hc, regionStep]

theorem mem_foldl_regionStep (nodes : List Node) (rs : List String)
    (x : String) :
    x ∈ nodes.foldl regionStep rs ↔
      x ∈ rs ∨ ∃ n ∈ nodes, n.type.value = "ComputeInstance" ∧
        n.region = some x ∧ x ≠ "" := by
  induction nodes generalizing rs with
  | nil => simp
  | cons n ns ih =>
    rw [List.foldl_cons, ih]
    by_cases hc : n.type.value = "ComputeInstance"
    · cases hr : n.region with
      | none =>
        simp only [regionStep, hc, if_pos, hr]
        constructor
        · rintro (hx | hx)
          · exact Or.inl hx
          · exact Or.inr (by
              obtain ⟨m, hm, h1, h2, h3⟩ := hx
              exact ⟨m, List.mem_cons_of_mem _ hm, h1, h2, h3⟩)
        · rintro (hx | ⟨m, hm, h1, h2, h3⟩)
          · exact Or.inl hx
          · rcases List.mem_cons.mp hm with rfl | hm'
            · rw [hr] at h2; cases h2
            · exact Or.inr ⟨m, hm', h1, h2, h3⟩
      | some r =>
        by_cases he : r = ""
        · subst he
          simp only [regionStep, hc, if_pos, hr, if_pos rfl]
          constructor
          · rintro (hx | ⟨m, hm, h1, h2, h3⟩)
            · exact Or.inl hx
            · exact Or.inr ⟨m, List.mem_cons_of_mem _ hm, h1, h2, h3⟩
          · rintro (hx | ⟨m, hm, h1, h2, h3⟩)
            · exact Or.inl hx
            · rcases List.mem_cons.mp hm with rfl | hm'
              · rw [hr] at h2
                cases h2
                exact absurd rfl h3
              · exact Or.inr ⟨m, hm', h1, h2, h3⟩
        · simp only [regionStep, hc, if_pos, hr, if_neg he]
          constructor
          · rintro (hx | ⟨m, hm, h1, h2, h3⟩)
            · rcases mem_setInsert.mp hx with hx' | rfl
              · exact Or.inl hx'
              · exact Or.inr ⟨n, List.mem_cons_self _ _, hc, hr, he⟩
            · exact Or.inr ⟨m, List.mem_cons_of_mem _ hm, h1, h2, h3⟩
          · rintro (hx | ⟨m, hm, h1, h2, h3⟩)
            · exact Or.inl (mem_setInsert.mpr (Or.inl hx))
            · rcases List.mem_cons.mp hm with rfl | hm'
              · rw [hr] at h2
                cases h2
                exact Or.inl (mem_setInsert.mpr (Or.inr rfl))
              · exact Or.inr ⟨m, hm', h1, h2, h3⟩
    · simp only [regionStep, hc, if_neg, ite_false]
      constructor
      · rintro (hx | ⟨m, hm, h1, h2, h3⟩)
        · exact Or.inl hx
        · exact Or.inr ⟨m, List.mem_cons_of_mem _ hm, h1, h2, h3⟩
      · rintro (hx | ⟨m, hm, h1, h2, h3⟩)
        · exact Or.inl hx
        · rcases List.mem_cons.mp hm with rfl | hm'
          · exact absurd h1 hc
          · exact Or.inr ⟨m, hm', h1, h2, h3⟩

theorem instFor_eq_resolvedInstance (g : CloudGraph) (n : Node) :
    instFor (buildServerNetwork (buildNetworks g.nodes) g.edges) n =
      resolvedInstance g n := by
  simp only [instFor, resolvedInstance, InstanceSpec.mk.injEq, true_and,
    and_true]
  rw [dictGet_buildServerNetwork]
  cases lastResolving (buildNetworks g.nodes) n.id g.edges with
  | some e => simp
  | none => simp

theorem graph_to_spec_instances_eq (pick : List String → Option String)
    (g : CloudGraph) (p : String) :
    (graph_to_spec pick g p).instances =
      (g.nodes.filter (fun n => n.type.value == "ComputeInstance")).map
        (resolvedInstance g) := by
  have hfun : instFor (buildServerNetwork (buildNetworks g.nodes) g.edges) =
      resolvedInstance g := funext (instFor_eq_resolvedInstance g)
  show (g.nodes.foldl
      (specLoopStep (buildServerNetwork (buildNetworks g.nodes) g.edges))
      { nets := buildNetworks g.nodes, regions := [], insts := [] }).insts = _
  rw [foldl_specLoopStep_insts, hfun]
  simp

/-- Accumulated set of regions (as an insertion-ordered duplicate-free
list) observed by graph_to_spec across ComputeInstance nodes. -/
def observedRegions (g : CloudGraph) : List String :=
  g.nodes.foldl regionStep []

theorem graph_to_spec_region_eq (pick : List String → Option String)
    (g : CloudGraph) (p : String) :
    (graph_to_spec pick g p).region = pick (observedRegions g) := by
  show pick (g.nodes.foldl
      (specLoopStep (buildServerNetwork (buildNetworks g.nodes) g.edges))
      { nets := buildNetworks g.nodes, regions := [], insts := [] }).regions = _
  rw [foldl_specLoopStep_regions]
  rfl

theorem mem_observedRegions (g : CloudGraph) (x : String) :
    x ∈ observedRegions g ↔
      ∃ n ∈ g.nodes, n.type.value = "ComputeInstance" ∧
        n.region = some x ∧ x ≠ "" := by
  rw [observedRegions, mem_foldl_regionStep]
  simp

/-- ValidPick: taking the head of the list is one admissible iteration
order of a Python set. -/
theorem validPick_head : ValidPick List.head? := by
  refine ⟨rfl, ?_⟩
  intro l hl
  cases l with
  | nil => exact absurd rfl hl
  | cons a t => exact ⟨a, List.mem_cons_self _ _, rfl⟩

/-- ValidPick: taking the last element of the list is another admissible
iteration order of a Python set. -/
theorem validPick_getLast : ValidPick List.getLast? := by
  refine ⟨rfl, ?_⟩
  intro l hl
  cases l with
  | nil => exact absurd rfl hl
  | cons a t =>
    exact ⟨(a :: t).getLast (by simp), List.getLast_mem _,
      (List.getLast?_eq_getLast _ (by simp)).symm⟩

/-! Concrete graphs used to separate the claims from the code. -/

/-- Network node n1 of the two-edge scenario. -/
def c2NetNode1 : Node :=
  { id := "hetzner:network:1", type := .network, name := some "n1",
    attrs := [("ip_range", "10.1.0.0/16")] }

/-- Network node n2 of the two-edge scenario. -/
def c2NetNode2 : Node :=
  { id := "hetzner:network:2", type := .network, name := some "n2",
    attrs := [("ip_range", "10.2.0.0/16")] }

/-- Server node of the two-edge scenario. -/
def c2Server : Node :=
  { id := "hetzner:server:7", type := .computeInstance, name := some "web" }

/-- First in_network edge (to n1). -/
def c2Edge1 : Edge :=
  { from_id := "hetzner:server:7", to_id := "hetzner:network:1",
    type := .inNetwork }

/-- Second in_network edge (to n2). -/
def c2Edge2 : Edge :=
  { from_id := "hetzner:server:7", to_id := "hetzner:network:2",
    type := .inNetwork }

/-- Graph in which one server has two in_network edges to two distinct
known networks. -/
def c2Graph : CloudGraph :=
  { nodes := [c2NetNode1, c2NetNode2, c2Server],
    edges := [c2Edge1, c2Edge2] }

/-- Graph with two ComputeInstance nodes in distinct regions. -/
def c6Graph : CloudGraph :=
  { nodes :=
      [{ id := "hetzner:server:1", type := .computeInstance,
         name := some "a", region := some "nbg1" },
       { id := "hetzner:server:2", type := .computeInstance,
         name := some "b", region := some "fsn1" }] }

/-- C2 counterexample: in c2Graph the server has two in_network edges to
distinct known Network nodes; the first edge resolves to network "n1", but
graph_to_spec emits the instance on network "n2" (the later dictionary
assignment overwrote the earlier one), contradicting the claim that the
first such edge is preferred. -/
theorem c2_counterexample :
    EdgeResolves (buildNetworks c2Graph.nodes) "hetzner:server:7" c2Edge1 ∧
    EdgeResolves (buildNetworks c2Graph.nodes) "hetzner:server:7" c2Edge2 ∧
    c2Edge1.to_id ≠ c2Edge2.to_id ∧
    claimFirstNet c2Graph "hetzner:server:7" = some "n1" ∧
    (graph_to_spec List.head? c2Graph "hetzner").instances.map
      InstanceSpec.network = ["n2"] ∧
    ("n2" : String) ≠ "n1" := by
  refine ⟨by decide, by decide, by decide, by decide, ?_, by decide⟩
  decide

/-- C2 (amended): for every graph, graph_to_spec emits one InstanceSpec per
ComputeInstance node, and the instance's network is the network name of the
LAST in_network edge from that server to a known Network node in the
graph's edge list ("default" when there is none): the dictionary assignment
in the edge loop lets each later edge overwrite the earlier ones. -/
theorem c2_network_from_last_edge (pick : List String → Option String)
    (g : CloudGraph) (p : String) :
    (graph_to_spec pick g p).instances =
      (g.nodes.filter (fun n => n.type.value == "ComputeInstance")).map
        (resolvedInstance g) :=
  graph_to_spec_instances_eq pick g p

/-- C6 counterexample: taking the last element is a valid iteration order of
the Python region set; under it graph_to_spec maps c6Graph to region
"fsn1", while the first ComputeInstance with a region has region "nbg1" —
so the region is not, in general, the first observed region. -/
theorem c6_counterexample :
    ValidPick List.getLast? ∧
    claimFirstRegion c6Graph = some "nbg1" ∧
    (graph_to_spec List.getLast? c6Graph "hetzner").region = some "fsn1" ∧
    (some "fsn1" : Option String) ≠ some "nbg1" :=
  ⟨validPick_getLast, by decide, by decide, by decide⟩

/-- C6 (amended): for every valid iteration order of the Python region set,
the region of the DesiredStateSpec produced by graph_to_spec is null exactly
when no ComputeInstance node has a nonempty region, and otherwise is the
region of SOME ComputeInstance node with a nonempty region (which one is
unspecified: it depends on the randomized hash iteration order of the set,
not on graph node order). -/
theorem c6_region_some_observed (pick : List String → Option String)
    (hp : ValidPick pick) (g : CloudGraph) (p : String) :
    ((graph_to_spec pick g p).region = none ↔
      ∀ n ∈ g.nodes, n.type.value = "ComputeInstance" →
        n.region.getD "" = "") ∧
    (∀ r, (graph_to_spec pick g p).region = some r →
      ∃ n ∈ g.nodes, n.type.value = "ComputeInstance" ∧
        n.region = some r ∧ r ≠ "") := by
  rw [graph_to_spec_region_eq]
  constructor
  · constructor
    · intro h n hn hc
      cases hr : n.region with
      | none => rfl
      | some r =>
        simp only [Option.getD_some]
        by_contra hne
        have hmem : r ∈ observedRegions g :=
          (mem_observedRegions g r).mpr ⟨n, hn, hc, hr, hne⟩
        have hnil : observedRegions g ≠ [] := by
          intro h0
          rw [h0] at hmem
          simp at hmem
        obtain ⟨x, _, hx⟩ := hp.2 _ hnil
        rw [hx] at h
        cases h
    · intro h
      have hnil : observedRegions g = [] := by
        rw [List.eq_nil_iff_forall_not_mem]
        intro x hx
        obtain ⟨n, hn, hc, hr, hne⟩ := (mem_observedRegions g x).mp hx
        have := h n hn hc
        rw [hr] at this
        simp at this
        exact hne this
      rw [hnil]
      exact hp.1
  · intro r h
    have hnil : observedRegions g ≠ [] := by
      intro h0
      rw [h0, hp.1] at h
      cases h
    obtain ⟨x, hxm, hx⟩ := hp.2 _ hnil
    rw [hx] at h
    have hxr : x = r := Option.some.inj h
    subst hxr
    exact (mem_observedRegions g x).mp hxm

/-- C6 witness: applying the amended theorem with the head-of-list
iteration order to the concrete two-region graph shows that the region the
code picks ("nbg1" under this order) is indeed the region of one of the
compute nodes. -/
theorem c6_witness :
    ∃ n ∈ c6Graph.nodes, n.type.value = "ComputeInstance" ∧
      n.region = some "nbg1" ∧ "nbg1" ≠ "" :=
  (c6_region_some_observed List.head? validPick_head c6Graph "hetzner").2
    "nbg1" (by decide)

/-! Lemmas about string concatenation, used by the synthetic-network-key
analysis of graph_to_spec. -/

theorem strData_append (a b : String) : (a ++ b).data = a.data ++ b.data := by
  cases a
  cases b
  rfl

theorem strData_inj {a b : String} (h : a.data = b.data) : a = b := by
  cases a
  cases b
  exact congrArg String.mk h

theorem listIsPrefixOf_append (l m : List Char) :
    l.isPrefixOf (l ++ m) = true := by
  induction l with
  | nil => simp [List.isPrefixOf]
  | cons a t ih => simp [List.isPrefixOf, ih]

theorem syntheticId_append (x : String) :
    syntheticId ("synthetic:" ++ x) = true := by
  rw [syntheticId, strData_append]
  exact listIsPrefixOf_append _ _

theorem synthKey_inj {a b : String}
    (h : "synthetic:" ++ a = "synthetic:" ++ b) : a = b := by
  have hd : ("synthetic:" ++ a).data = ("synthetic:" ++ b).data :=
    congrArg String.data h
  rw [strData_append, strData_append] at hd
  exact strData_inj (List.append_cancel_left hd)

/-! C7 machinery: keys of the network dictionary built from Network nodes
are node ids; synthetic keys always carry the name they were created for;
every emitted instance keeps a matching NetworkSpec in the dictionary. -/

theorem mem_foldl_networksStep {nodes : List Node}
    {nets0 : List (String × NetworkSpec)} {k : String} {ns : NetworkSpec}
    (h : (k, ns) ∈ nodes.foldl networksStep nets0) :
    (k, ns) ∈ nets0 ∨
      ∃ n ∈ nodes, n.type.value = "Network" ∧ n.id = k := by
  induction nodes generalizing nets0 with
  | nil => exact Or.inl h
  | cons n tl ih =>
    rw [List.foldl_cons] at h
    rcases ih h with h' | ⟨m, hm, h1, h2⟩
    · by_cases hn : n.type.value = "Network"
      · rw [networksStep, if_pos hn] at h'
        rcases mem_dictSet h' with ⟨hk, _⟩ | h''
        · exact Or.inr ⟨n, List.mem_cons_self _ _, hn, hk.symm⟩
        · exact Or.inl h''
      · rw [networksStep, if_neg hn] at h'
        exact Or.inl h'
    · exact Or.inr ⟨m, List.mem_cons_of_mem _ hm, h1, h2⟩

theorem mem_buildNetworks {nodes : List Node} {k : String} {ns : NetworkSpec}
    (h : (k, ns) ∈ buildNetworks nodes) :
    ∃ n ∈ nodes, n.type.value = "Network" ∧ n.id = k := by
  rcases mem_foldl_networksStep h with h' | h'
  · simp at h'
  · exact h'

/-- Key-shape invariant of the network dictionary inside the instance loop:
every entry whose key has the synthetic shape was created for its own
network name. -/
def Kinv (nets : List (String × NetworkSpec)) : Prop :=
  ∀ k ns, (k, ns) ∈ nets → syntheticId k = true → k = "synthetic:" ++ ns.name

/-- Instance invariant: every accumulated instance references a network
name present among the dictionary values. -/
def Pinv (nets : List (String × NetworkSpec))
    (insts : List InstanceSpec) : Prop :=
  ∀ i ∈ insts, ∃ ns ∈ dictValues nets, ns.name = i.network

theorem specLoopStep_preserves (sn : List (String × String))
    (st : SpecLoopState) (n : Node) (hK : Kinv st.nets)
    (hP : Pinv st.nets st.insts) :
    Kinv (specLoopStep sn st n).nets ∧
      Pinv (specLoopStep sn st n).nets (specLoopStep sn st n).insts := by
  by_cases hc : n.type.value = "ComputeInstance"
  · rw [specLoopStep, if_pos hc]
    simp only
    set netName := (dictGet sn n.id).getD "default" with hdef
    by_cases hn :
        ((dictValues st.nets).map NetworkSpec.name).contains netName
    · rw [if_pos hn]
      refine ⟨hK, ?_⟩
      intro i hi
      rcases List.mem_append.mp hi with hi' | hi'
      · exact hP i hi'
      · have hiv : i = instFor sn n := by
          simpa [instFor] using hi'
        have hmem : netName ∈ (dictValues st.nets).map NetworkSpec.name := by
          simpa using hn
        obtain ⟨ns, hns, hname⟩ := List.mem_map.mp hmem
        subst hiv
        exact ⟨ns, hns, hname⟩
    · rw [if_neg hn]
      have habsent :
          dictContains st.nets ("synthetic:" ++ netName) = false := by
        by_contra hcon
        have hcon' : dictContains st.nets ("synthetic:" ++ netName) = true := by
          revert hcon
          cases dictContains st.nets ("synthetic:" ++ netName) <;> simp
        obtain ⟨ns0, hg⟩ : ∃ ns0,
            dictGet st.nets ("synthetic:" ++ netName) = some ns0 := by
          rcases hx : dictGet st.nets ("synthetic:" ++ netName) with _ | ns0
          · rw [dictContains, hx] at hcon'
            simp at hcon'
          · exact ⟨ns0, rfl⟩
        have hmem0 := dictGet_mem hg
        have hk := hK _ _ hmem0 (syntheticId_append netName)
        have hnm : ns0.name = netName := (synthKey_inj hk).symm
        have : netName ∈ (dictValues st.nets).map NetworkSpec.name := by
          exact List.mem_map.mpr ⟨ns0, List.mem_map.mpr ⟨_, hmem0, rfl⟩, hnm⟩
        exact hn (by simpa using this)
      have hsetd :
          dictSetdefault st.nets ("synthetic:" ++ netName)
              { name := netName, cidr := "10.0.0.0/24" } =
            st.nets ++ [("synthetic:" ++ netName,
              { name := netName, cidr := "10.0.0.0/24" })] := by
        rw [dictSetdefault, habsent]
        simp
      rw [hsetd]
      constructor
      · intro k ns hkns hsyn
        rcases List.mem_append.mp hkns with h' | h'
        · exact hK k ns h' hsyn
        · simp at h'
          rw [h'.1, h'.2]
      · intro i hi
        rcases List.mem_append.mp hi with hi' | hi'
        · obtain ⟨ns, hns, hname⟩ := hP i hi'
          refine ⟨ns, ?_, hname⟩
          simp only [dictValues, List.map_append]
          exact List.mem_append.mpr (Or.inl (by simpa [dictValues] using hns))
        · have hiv : i = instFor sn n := by
            simpa [instFor] using hi'
          subst hiv
          refine ⟨{ name := netName, cidr := "10.0.0.0/24" }, ?_, rfl⟩
          simp [dictValues]
  · rw [specLoopStep, if_neg hc]
    exact ⟨hK, hP⟩

theorem foldl_specLoopStep_preserves (sn : List (String × String))
    (nodes : List Node) (st : SpecLoopState) (hK : Kinv st.nets)
    (hP : Pinv st.nets st.insts) :
    Pinv (nodes.foldl (specLoopStep sn) st).nets
      (nodes.foldl (specLoopStep sn) st).insts := by
  induction nodes generalizing st with
  | nil => exact hP
  | cons n tl ih =>
    rw [List.foldl_cons]
    obtain ⟨hK', hP'⟩ := specLoopStep_preserves sn st n hK hP
    exact ih _ hK' hP'

theorem lastResolving_eq_none (nets : List (String × NetworkSpec))
    (s : String) (edges : List Edge)
    (h : ∀ e ∈ edges, ¬ (e.type.value = "in_network" ∧ e.from_id = s)) :
    lastResolving nets s edges = none := by
  induction edges with
  | nil => rfl
  | cons e tl ih =>
    have he : ¬ EdgeResolves nets s e := by
      intro hr
      exact h e (List.mem_cons_self _ _) ⟨hr.1, hr.2.2⟩
    rw [lastResolving,
      ih (fun e' he' => h e' (List.mem_cons_of_mem _ he'))]
    simp [he]

/-- Graph whose only Network node has the id "synthetic:default" but the
name "X": the id collides with the internal synthetic dictionary key that
graph_to_spec would use for the "default" network. -/
def c7Graph : CloudGraph :=
  { nodes :=
      [{ id := "synthetic:default", type := .network, name := some "X" },
       { id := "hetzner:server:7", type := .computeInstance,
         name := some "web" }] }

/-- Graph with a single ComputeInstance node and no Network node at all. -/
def c7WitnessGraph : CloudGraph :=
  { nodes :=
      [{ id := "hetzner:server:9", type := .computeInstance,
         name := some "solo" }] }

/-- C7 counterexample: in c7Graph the scanned Network node's id equals the
internal synthetic key "synthetic:default", so dict.setdefault does not
insert the synthesized "default" NetworkSpec; the emitted instance
references network "default" while the output's only NetworkSpec is named
"X" — the claimed invariant fails on this graph. -/
theorem c7_counterexample :
    (graph_to_spec List.head? c7Graph "hetzner").instances.map
        InstanceSpec.network = ["default"] ∧
    (graph_to_spec List.head? c7Graph "hetzner").networks.map
        NetworkSpec.name = ["X"] ∧
    ∃ inst ∈ (graph_to_spec List.head? c7Graph "hetzner").instances,
      ∀ net ∈ (graph_to_spec List.head? c7Graph "hetzner").networks,
        net.name ≠ inst.network := by
  refine ⟨by decide, by decide, ?_⟩
  decide

/-- C7 (amended): for every graph in which no Network node's id starts with
"synthetic:" (in particular every graph using the documented
provider:kind:native_id scheme), every InstanceSpec emitted by
graph_to_spec references a network name carried by some NetworkSpec of the
same output, and a ComputeInstance with no in_network edge is emitted under
the "default" network. -/
theorem c7_instance_network_exists (pick : List String → Option String)
    (g : CloudGraph) (p : String)
    (hsyn : ∀ n ∈ g.nodes, n.type.value = "Network" →
      syntheticId n.id = false) :
    (∀ inst ∈ (graph_to_spec pick g p).instances,
      ∃ net ∈ (graph_to_spec pick g p).networks,
        net.name = inst.network) ∧
    (∀ n ∈ g.nodes, n.type.value = "ComputeInstance" →
      (∀ e ∈ g.edges, ¬ (e.type.value = "in_network" ∧ e.from_id = n.id)) →
      resolvedInstance g n ∈ (graph_to_spec pick g p).instances ∧
        (resolvedInstance g n).network = "default") := by
  have hinst : (graph_to_spec pick g p).instances =
      (g.nodes.foldl
        (specLoopStep (buildServerNetwork (buildNetworks g.nodes) g.edges))
        { nets := buildNetworks g.nodes, regions := [], insts := [] }).insts :=
    rfl
  have hnets : (graph_to_spec pick g p).networks =
      dictValues (g.nodes.foldl
        (specLoopStep (buildServerNetwork (buildNetworks g.nodes) g.edges))
        { nets := buildNetworks g.nodes, regions := [], insts := [] }).nets :=
    rfl
  constructor
  · rw [hinst, hnets]
    have hK0 : Kinv (buildNetworks g.nodes) := by
      intro k ns hm hsynk
      obtain ⟨n, hn, hN, hid⟩ := mem_buildNetworks hm
      subst hid
      rw [hsyn n hn hN] at hsynk
      cases hsynk
    have hP0 : Pinv (buildNetworks g.nodes) [] := by
      intro i hi
      cases hi
    exact foldl_specLoopStep_preserves _ g.nodes _ hK0 hP0
  · intro n hn hc hnoedge
    have hdefault : (resolvedInstance g n).network = "default" := by
      rw [resolvedInstance,
        lastResolving_eq_none (buildNetworks g.nodes) n.id g.edges hnoedge]
    refine ⟨?_, hdefault⟩
    rw [graph_to_spec_instances_eq]
    exact List.mem_map.mpr
      ⟨n, List.mem_filter.mpr ⟨hn, by simp [hc]⟩, rfl⟩

/-- C7 witness: the amended theorem applied to a one-node graph with no
Network nodes shows the lone instance is emitted under a synthesized
"default" network. -/
theorem c7_witness :
    (∀ inst ∈ (graph_to_spec List.head? c7WitnessGraph "hetzner").instances,
      ∃ net ∈ (graph_to_spec List.head? c7WitnessGraph "hetzner").networks,
        net.name = inst.network) ∧
    (∀ n ∈ c7WitnessGraph.nodes, n.type.value = "ComputeInstance" →
      (∀ e ∈ c7WitnessGraph.edges,
        ¬ (e.type.value = "in_network" ∧ e.from_id = n.id)) →
      resolvedInstance c7WitnessGraph n ∈
          (graph_to_spec List.head? c7WitnessGraph "hetzner").instances ∧
        (resolvedInstance c7WitnessGraph n).network = "default") :=
  c7_instance_network_exists List.head? c7WitnessGraph "hetzner" (by decide)

/-! JSON values (the parsed form of the JSON text exchanged through
scan.json, spec.json and plan files). -/

/-- Parsed JSON value. -/
inductive JVal where
  | null
  | bool (b : Bool)
  | num (n : Int)
  | str (s : String)
  | arr (xs : List JVal)
  | obj (kvs : List (String × JVal))

/-- Map a fallible function over a list, failing when any element fails. -/
def optMapList {α β : Type} (f : α → Option β) : List α → Option (List β)
  | [] => some []
  | a :: t =>
    match f a, optMapList f t with
    | some b, some bs => some (b :: bs)
    | _, _ => none

/-- Read a JSON string. -/
def asStr : JVal → Option String
  | .str s => some s
  | _ => none

/-- Read an optional JSON string (null allowed). -/
def asOptStr : JVal → Option (Option String)
  | .null => some none
  | .str s => some (some s)
  | _ => none

/-- Read a JSON object whose values are all strings. -/
def asStrPairs : JVal → Option (List (String × String))
  | .obj kvs => optMapList (fun kv => (asStr kv.2).map (fun s => (kv.1, s))) kvs
  | _ => none

/-- Optional string field with default null (pydantic Optional[str]). -/
def optStrField (kvs : List (String × JVal)) (k : String) :
    Option (Option String) :=
  match dictGet kvs k with
  | none => some none
  | some v => asOptStr v

/-- String-map field with default empty dict (pydantic Dict[str, str]). -/
def strMapField (kvs : List (String × JVal)) (k : String) :
    Option (List (String × String)) :=
  match dictGet kvs k with
  | none => some []
  | some v => asStrPairs v

/-- Parse a NodeType from its serialized enum value. -/
def parseNodeType : String → Option NodeType
  | "ComputeInstance" => some .computeInstance
  | "LoadBalancer" => some .loadBalancer
  | "Network" => some .network
  | "Subnet" => some .subnet
  | "Firewall" => some .firewall
  | "Volume" => some .volume
  | "IpAddress" => some .ipAddress
  | "DnsRecord" => some .dnsRecord
  | _ => none

/-- Parse an EdgeType from its serialized enum value. -/
def parseEdgeType : String → Option EdgeType
  | "attached_to" => some .attachedTo
  | "in_network" => some .inNetwork
  | "protected_by" => some .protectedBy
  | "targets" => some .targets
  | "resolves_to" => some .resolvesTo
  | _ => none

/-- Serialize an optional string the way pydantic model_dump_json does. -/
def encodeOptStr : Option String → JVal
  | some s => .str s
  | none => .null

/-- Serialize a string map. -/
def encodeStrPairs (l : List (String × String)) : JVal :=
  .obj (l.map (fun kv => (kv.1, JVal.str kv.2)))

/-- Serialization of a Node by CloudGraph.model_dump_json. -/
def encodeNode (n : Node) : JVal :=
  .obj [("id", .str n.id),
        ("type", .str n.type.value),
        ("name", encodeOptStr n.name),
        ("region", encodeOptStr n.region),
        ("zone", encodeOptStr n.zone),
        ("provider", encodeOptStr n.provider),
        ("provider_native_id", encodeOptStr n.provider_native_id),
        ("labels", encodeStrPairs n.labels),
        ("attrs", encodeStrPairs n.attrs)]

/-- Serialization of an Edge by CloudGraph.model_dump_json (field names,
not aliases, since by_alias is not requested). -/
def encodeEdge (e : Edge) : JVal :=
  .obj [("from_id", .str e.from_id),
        ("to_id", .str e.to_id),
        ("type", .str e.type.value)]

/-- Serialization of a CloudGraph by model_dump_json, as written to
scan.json by run_scan. -/
def encodeCloudGraph (g : CloudGraph) : JVal :=
  .obj [("nodes", .arr (g.nodes.map encodeNode)),
        ("edges", .arr (g.edges.map encodeEdge))]

/-- Validation of a Node by CloudGraph.model_validate. -/
def decodeNode (j : JVal) : Option Node := do
  match j with
  | .obj kvs =>
    let id ← (dictGet kvs "id").bind asStr
    let tyStr ← (dictGet kvs "type").bind asStr
    let ty ← parseNodeType tyStr
    let name ← optStrField kvs "name"
    let region ← optStrField kvs "region"
    let zone ← optStrField kvs "zone"
    let provider ← optStrField kvs "provider"
    let pnid ← optStrField kvs "provider_native_id"
    let labels ← strMapField kvs "labels"
    let attrs ← strMapField kvs "attrs"
    pure { id := id, type := ty, name := name, region := region,
           zone := zone, provider := provider, provider_native_id := pnid,
           labels := labels, attrs := attrs }
  | _ => none

/-- Validation of an Edge by CloudGraph.model_validate: the alias "from"
is accepted, and so is the field name "from_id" (populate_by_name). -/
def decodeEdge (j : JVal) : Option Edge := do
  match j with
  | .obj kvs =>
    let fromV ←
      match dictGet kvs "from" with
      | some v => asStr v
      | none => (dictGet kvs "from_id").bind asStr
    let toV ←
      match dictGet kvs "to" with
      | some v => asStr v
      | none => (dictGet kvs "to_id").bind asStr
    let tyStr ← (dictGet kvs "type").bind asStr
    let ty ← parseEdgeType tyStr
    pure { from_id := fromV, to_id := toV, type := ty }
  | _ => none

/-- Validation of a CloudGraph by CloudGraph.model_validate. -/
def decodeCloudGraph (j : JVal) : Option CloudGraph := do
  match j with
  | .obj kvs =>
    let nodes ←
      match dictGet kvs "nodes" with
      | none => some []
      | some (.arr xs) => optMapList decodeNode xs
      | some _ => none
    let edges ←
      match dictGet kvs "edges" with
      | none => some []
      | some (.arr xs) => optMapList decodeEdge xs
      | some _ => none
    pure { nodes := nodes, edges := edges }
  | _ => none

/-! Round-trip lemmas for the CloudGraph serialization. -/

theorem asOptStr_encodeOptStr (o : Option String) :
    asOptStr (encodeOptStr o) = some o := by
  cases o <;> rfl

theorem optMapList_map_id {α β : Type} (f : β → Option α) (g : α → β)
    (h : ∀ a, f (g a) = some a) (l : List α) :
    optMapList f (l.map g) = some l := by
  induction l with
  | nil => rfl
  | cons a t ih =>
    simp only [List.map_cons, optMapList, h a, ih]

theorem asStrPairs_encodeStrPairs (l : List (String × String)) :
    asStrPairs (encodeStrPairs l) = some l := by
  show optMapList (fun kv => (asStr kv.2).map (fun s => (kv.1, s)))
      (l.map (fun kv => (kv.1, JVal.str kv.2))) = some l
  exact optMapList_map_id
    (fun kv => (asStr kv.2).map (fun s => (kv.1, s)))
    (fun kv => (kv.1, JVal.str kv.2))
    (fun kv => by obtain ⟨k, v⟩ := kv; rfl) l

theorem parseNodeType_value (t : NodeType) :
    parseNodeType t.value = some t := by
  cases t <;> rfl

theorem parseEdgeType_value (t : EdgeType) :
    parseEdgeType t.value = some t := by
  cases t <;> rfl

theorem decodeNode_encodeNode (n : Node) :
    decodeNode (encodeNode n) = some n := by
  obtain ⟨id, ty, name, region, zone, provider, pnid, labels, attrs⟩ := n
  simp [decodeNode, encodeNode, dictGet, asStr, optStrField, strMapField,
    asOptStr_encodeOptStr, asStrPairs_encodeStrPairs, parseNodeType_value]

theorem decodeEdge_encodeEdge (e : Edge) :
    decodeEdge (encodeEdge e) = some e := by
  obtain ⟨f, t, ty⟩ := e
  simp [decodeEdge, encodeEdge, dictGet, asStr, parseEdgeType_value]

/-- C8 (confirmed): decoding the serialized form of any CloudGraph yields
the graph back unchanged — in particular node count, edge count, node ids
and node attrs are identical. -/
theorem c8_roundtrip (g : CloudGraph) :
    decodeCloudGraph (encodeCloudGraph g) = some g := by
  obtain ⟨nodes, edges⟩ := g
  simp [decodeCloudGraph, encodeCloudGraph, dictGet,
    optMapList_map_id decodeNode encodeNode decodeNode_encodeNode,
    optMapList_map_id decodeEdge encodeEdge decodeEdge_encodeEdge]

/-! Terraform generator (terraform_gen.py, HetznerTerraformGenerator).
Literal braces of the generated HCL and cloud-init text are written with
hexadecimal escapes. -/

/-- DEFAULT_ALLOWED_ORIGINS constant from terraform_gen.py. -/
def DEFAULT_ALLOWED_ORIGINS : List String :=
  [ "$\x7bdistro_id\x7d:$\x7bdistro_codename\x7d-security",
    "$\x7bdistro_id\x7dESMApps:$\x7bdistro_codename\x7d-apps-security",
    "$\x7bdistro_id\x7dESM:$\x7bdistro_codename\x7d-infra-security" ]

/-- DEFAULT_REBOOT_TIME constant from terraform_gen.py. -/
def DEFAULT_REBOOT_TIME : String := "04:00"

/-- Cloud-init baseline template returned by _base_user_data. -/
def baseUserData : String :=
  String.join ((
    [ "#cloud-config",
      "package_update: true",
      "package_upgrade: true",
      "packages:",
      "  - git",
      "  - curl",
      "  - python3",
      "  - python3-pip",
      "  - nginx",
      "  - docker.io",
      "  - unattended-upgrades",
      "",
      "ssh_pwauth: false",
      "chpasswd:",
      "  expire: False",
      "  list: |",
      "    root:cloudhand-temp-rotate",
      "users:",
      "  - name: root",
      "    ssh_authorized_keys:",
      "      - $\x7bvar.ssh_public_key\x7d",
      "",
      "write_files:",
      "  - path: /etc/apt/apt.conf.d/20auto-upgrades",
      "    permissions: \"0644\"",
      "    content: |",
      "      APT::Periodic::Update-Package-Lists \"__CH_PERIODIC_UPDATE__\";",
      "      APT::Periodic::Unattended-Upgrade \"__CH_PERIODIC_UPGRADE__\";",
      "",
      "  - path: /etc/apt/apt.conf.d/50unattended-upgrades",
      "    permissions: \"0644\"",
      "    content: |",
      "      Unattended-Upgrade::Allowed-Origins \x7b",
      "__CH_ALLOWED_ORIGINS__",
      "      \x7d;",
      "",
      "      Unattended-Upgrade::Automatic-Reboot \"__CH_AUTO_REBOOT__\";",
      "      Unattended-Upgrade::Automatic-Reboot-Time \"__CH_REBOOT_TIME__\";",
      "",
      "  - path: /etc/systemd/system/apt-daily.timer.d/override.conf",
      "    permissions: \"0644\"",
      "    content: |",
      "      [Timer]",
      "      OnCalendar=",
      "      OnCalendar=*-*-* 02:00:00",
      "      RandomizedDelaySec=15m",
      "      Persistent=false",
      "",
      "  - path: /etc/systemd/system/apt-daily-upgrade.timer.d/override.conf",
      "    permissions: \"0644\"",
      "    content: |",
      "      [Timer]",
      "      OnCalendar=",
      "      OnCalendar=*-*-* 02:15:00",
      "      RandomizedDelaySec=15m",
      "      Persistent=false",
      "",
      "runcmd:",
      "  - bash -lc \"chage -I -1 -m 0 -M 99999 -E -1 root\"",
      "  - bash -lc \"chage -d $(date +%Y-%m-%d) root\"",
      "  - passwd -d root || true",
      "  - systemctl daemon-reload",
      "  - systemctl restart apt-daily.timer apt-daily-upgrade.timer",
      "  - systemctl enable nginx",
      "  - systemctl start nginx" ]).map (fun l => l ++ "\n"))

/-- Rendering of Allowed-Origins lines with Terraform-safe escaping of
dollar-brace interpolation (_render_allowed_origins). -/
def renderAllowedOrigins (origins : List String) : String :=
  String.join ((origins.map (fun o => o.replace "$\x7b" "$$\x7b")).map
    (fun o => "          \"" ++ o ++ "\";\n"))

/-- Python string truthiness of an optional string. -/
def truthyS (o : Option String) : Bool :=
  o.getD "" ≠ ""

/-- Python str.lower at the character level. -/
def pyToLower (s : String) : String :=
  String.mk (s.data.map Char.toLower)

/-- Per-instance cloud-init rendering (_user_data_for_instance). -/
def userDataForInstance (inst : InstanceSpec) : String :=
  let role := pyToLower ((dictGet inst.labels "role").getD "")
  let stateful :=
    pyToLower ((dictGet inst.labels "stateful").getD "") = "true" ∨
      role = "db" ∨ role = "postgres"
  let policy :=
    match inst.maintenance with
    | some m => some m.unattended_upgrades
    | none => none
  let allowed_origins :=
    match policy with
    | some pol => if pol.allowed_origins ≠ [] then pol.allowed_origins
                  else DEFAULT_ALLOWED_ORIGINS
    | none => DEFAULT_ALLOWED_ORIGINS
  let auto_reboot_value :=
    match policy with
    | some pol => pol.auto_reboot
    | none => ¬ stateful
  let reboot_time :=
    match policy with
    | some pol => pyOrStr (some pol.auto_reboot_time) DEFAULT_REBOOT_TIME
    | none => DEFAULT_REBOOT_TIME
  let periodic :=
    match policy with
    | some pol => if pol.enabled then "1" else "0"
    | none => "1"
  ((((baseUserData.replace "__CH_ALLOWED_ORIGINS__"
        (renderAllowedOrigins allowed_origins)).replace "__CH_AUTO_REBOOT__"
        (if auto_reboot_value then "true" else "false")).replace
        "__CH_REBOOT_TIME__" reboot_time).replace
        "__CH_PERIODIC_UPDATE__" periodic).replace
        "__CH_PERIODIC_UPGRADE__" periodic

/-- One hcloud_server resource block (_server_block). -/
def serverBlock (inst : InstanceSpec) (spec : DesiredStateSpec)
    (user_data : String) : String :=
  let res_name := inst.name.replace "-" "_"
  let net_name := inst.network.replace "-" "_"
  let labels_hcl := String.join (inst.labels.map
    (fun kv => "    " ++ kv.1 ++ " = \"" ++ kv.2 ++ "\"\n"))
  let user_data_hcl := "  user_data = <<-EOF\n" ++ user_data ++ "EOF\n"
  let locPart :=
    if truthyS inst.region || truthyS spec.region then
      "  location    = \"" ++
        (if truthyS inst.region then inst.region.getD ""
         else spec.region.getD "") ++ "\"\n"
    else ""
  let labelsPart :=
    if labels_hcl ≠ "" then "  labels = \x7b\n" ++ labels_hcl ++ "  \x7d\n"
    else ""
  "resource \"hcloud_server\" \"" ++ res_name ++ "\" \x7b\n" ++
    "  name        = \"" ++ inst.name ++ "\"\n" ++
    "  server_type = \"" ++ inst.size ++ "\"\n" ++
    "  image       = \"ubuntu-22.04\"\n" ++
    locPart ++ labelsPart ++
    "\n  network \x7b\n" ++
    "    network_id = data.hcloud_network." ++ net_name ++ ".id\n" ++
    "  \x7d\n\n" ++
    user_data_hcl ++
    "  lifecycle \x7b\n" ++
    "    ignore_changes = [user_data]\n" ++
    "  \x7d\n" ++
    "\x7d\n\n"

/-- Content written to network.tf by generate. -/
def networkTf (spec : DesiredStateSpec) : String :=
  String.join (spec.networks.map (fun net =>
    "data \"hcloud_network\" \"" ++ net.name.replace "-" "_" ++
      "\" \x7b\n" ++ "  name = \"" ++ net.name ++ "\"\n" ++ "\x7d\n\n"))

/-- Content written to servers.tf by generate. -/
def serversTf (spec : DesiredStateSpec) : String :=
  String.join (spec.instances.map (fun inst =>
    serverBlock inst spec (userDataForInstance inst)))

/-- Content written to outputs.tf by generate. -/
def outputsTf (spec : DesiredStateSpec) : String :=
  "output \"server_ips\" \x7b\n  value = \x7b\n" ++
    String.join (spec.instances.map (fun inst =>
      "    \"" ++ inst.name ++ "\" = hcloud_server." ++
        inst.name.replace "-" "_" ++ ".ipv4_address\n")) ++
    "  \x7d\n\x7d\n"

/-- Content written to backend.tf by generate. -/
def backendTf : String :=
  "terraform \x7b\n" ++
    "  # Using local backend for now; swap to remote backend when available.\n" ++
    "\x7d\n"

/-- Content written to providers.tf by generate. -/
def providersTf : String :=
  "terraform \x7b\n  required_providers \x7b\n    hcloud = \x7b\n" ++
    "      source  = \"hetznercloud/hcloud\"\n" ++
    "      version = \"~> 1.0\"\n    \x7d\n  \x7d\n\x7d\n\n" ++
    "provider \"hcloud\" \x7b\n  token = var.hcloud_token\n\x7d\n"

/-- Content written to variables.tf by generate. -/
def variablesTf : String :=
  "variable \"hcloud_token\" \x7b\n  type      = string\n" ++
    "  sensitive = true\n\x7d\n\n" ++
    "variable \"ssh_public_key\" \x7b\n  type = string\n\x7d\n"

/-- File set fully overwritten by HetznerTerraformGenerator.generate. -/
def hetznerGenerate (spec : DesiredStateSpec) : List (String × String) :=
  [ ("backend.tf", backendTf),
    ("providers.tf", providersTf),
    ("variables.tf", variablesTf),
    ("network.tf", networkTf spec),
    ("servers.tf", serversTf spec),
    ("outputs.tf", outputsTf spec) ]

/-- C9 (confirmed): for a spec with zero instances the Hetzner generator
writes an empty servers.tf and an outputs.tf whose server_ips output is the
empty map. -/
theorem c9_zero_instances (spec : DesiredStateSpec)
    (h : spec.instances = []) :
    dictGet (hetznerGenerate spec) "servers.tf" = some "" ∧
    dictGet (hetznerGenerate spec) "outputs.tf" =
      some ("output \"server_ips\" \x7b\n  value = \x7b\n  \x7d\n\x7d\n") := by
  have hs : dictGet (hetznerGenerate spec) "servers.tf" =
      some (serversTf spec) := by
    simp [hetznerGenerate, dictGet]
  have ho : dictGet (hetznerGenerate spec) "outputs.tf" =
      some (outputsTf spec) := by
    simp [hetznerGenerate, dictGet]
  rw [hs, ho, serversTf, outputsTf, h]
  norm_num [String.join]
  rfl

/-- C9 witness: the theorem applied to the concrete empty Hetzner spec. -/
theorem c9_witness :
    dictGet (hetznerGenerate { provider := "hetzner" }) "servers.tf" =
        some "" ∧
    dictGet (hetznerGenerate { provider := "hetzner" }) "outputs.tf" =
      some ("output \"server_ips\" \x7b\n  value = \x7b\n  \x7d\n\x7d\n") :=
  c9_zero_instances { provider := "hetzner" } rfl

/-! Server deployer (adapters/deployer.py). Remote command execution is
modelled by an oracle assigning an outcome (exit code, stdout, stderr) to
every executed command string. -/

/-- Captured outcome of one remote command. -/
structure RunOutcome where
  exitCode : Int
  out : String
  err : String
  deriving DecidableEq, Repr

/-- Substring containment over character lists (Python's in test). -/
def listContainsSub (needle : List Char) : List Char → Bool
  | [] => needle == []
  | c :: t => needle.isPrefixOf (c :: t) || listContainsSub needle t

/-- Substring containment on strings (Python's needle in hay). -/
def strContainsS (hay needle : String) : Bool :=
  listContainsSub needle.data hay.data

/-- Final command string built by ServerDeployer.run (cd prefix when cwd is
given). -/
def finalCmd (cmd : String) (cwd : Option String) : String :=
  match cwd with
  | some d => "cd " ++ d ++ " && " ++ cmd
  | none => cmd

/-- Masked command string printed by ServerDeployer.run: every nonempty
mask entry is replaced by three asterisks. -/
def displayCmd (cmd : String) (cwd : Option String) (mask : List String) :
    String :=
  mask.foldl (fun c m => if m ≠ "" then c.replace m "***" else c)
    (finalCmd cmd cwd)

/-- Result of ServerDeployer.run given the remote outcome: stdout on exit
code zero, otherwise an exception whose message embeds the raw (unmasked)
final command and the stderr text. -/
def runResult (cmd : String) (cwd : Option String) (mask : List String)
    (oc : RunOutcome) : Except String String :=
  if oc.exitCode ≠ 0 then
    .error ("Command failed: " ++ finalCmd cmd cwd ++ "\nError: " ++ oc.err)
  else .ok oc.out

/-- One remote command run against the oracle. -/
def runCmd (env : String → RunOutcome) (cmd : String) (cwd : Option String)
    (mask : List String) : Except String String :=
  runResult cmd cwd mask (env (finalCmd cmd cwd))

/-- Failing command of the C1 scenario: a git fetch whose extraheader embeds
a bearer token. -/
def c1Cmd : String :=
  "git -c http.extraheader=\"Authorization: Bearer sekret42\" fetch origin"

/-- C1 (code bug): run is called with mask ["sekret42"], the command embeds
that secret, the remote exits nonzero — and the raised error message still
contains the secret verbatim, because the exception is built from final_cmd
instead of the masked display_cmd. -/
theorem c1_secret_leaks_into_error :
    ∃ msg, runCmd
        (fun c => if c = finalCmd c1Cmd (some "/opt/apps/web")
          then { exitCode := 1, out := "", err := "fatal: auth failed" }
          else { exitCode := 0, out := "", err := "" })
        c1Cmd (some "/opt/apps/web") ["sekret42"] = .error msg ∧
      strContainsS msg "sekret42" = true := by
  refine ⟨_, rfl, ?_⟩
  decide

/-! Git-sync step of ServerDeployer.deploy (the try/except block): commands
attempted in order, with the executed command list recorded. -/

/-- Remote app directory used by deploy. -/
def appDirOf (app : ApplicationSpec) : String :=
  app.destination_path ++ "/" ++ app.name

/-- Existence probe command of the git-sync step. -/
def testCmdOf (app : ApplicationSpec) : String :=
  "test -d " ++ appDirOf app

/-- Fetch-and-hard-reset command of the git-sync step (token-authenticated
when a GitHub token is configured). -/
def fetchCmdOf (app : ApplicationSpec) (ghToken : String) : String :=
  if ghToken ≠ "" then
    "git -c http.extraheader=\"Authorization: Bearer " ++ ghToken ++
      "\" fetch origin && git -c http.extraheader=\"Authorization: Bearer " ++
      ghToken ++ "\" reset --hard origin/" ++ app.branch
  else
    "git fetch origin && git reset --hard origin/" ++ app.branch

/-- Clone URL with the token embedded when configured. -/
def cloneUrlOf (app : ApplicationSpec) (ghToken : String) : String :=
  if ghToken ≠ "" then
    app.repo_url.replace "https://" ("https://" ++ ghToken ++ "@")
  else app.repo_url

/-- Clone command of the except branch. -/
def cloneCmdOf (app : ApplicationSpec) (ghToken : String) : String :=
  "git clone --branch " ++ app.branch ++ " " ++ cloneUrlOf app ghToken ++
    " " ++ appDirOf app

/-- The except branch of the git-sync step: delete the app directory,
recreate the parent, clone fresh. Failures here propagate. -/
def gitSyncRecover (env : String → RunOutcome) (app : ApplicationSpec)
    (ghToken : String) (done : List String) :
    List String × Except String Unit :=
  let rmCmd := "rm -rf " ++ appDirOf app
  let mkdirCmd := "mkdir -p " ++ app.destination_path
  let cloneCmd := cloneCmdOf app ghToken
  match runCmd env rmCmd none [] with
  | .error e => (done ++ [rmCmd], .error e)
  | .ok _ =>
    match runCmd env mkdirCmd none [] with
    | .error e => (done ++ [rmCmd, mkdirCmd], .error e)
    | .ok _ =>
      match runCmd env cloneCmd none
          (if ghToken ≠ "" then [ghToken] else []) with
      | .error e => (done ++ [rmCmd, mkdirCmd, cloneCmd], .error e)
      | .ok _ => (done ++ [rmCmd, mkdirCmd, cloneCmd], .ok ())

/-- Git-sync step of deploy: try existence probe then fetch+reset in the
app directory; ANY exception from either command falls into the recovery
branch that deletes the directory and clones fresh. -/
def deployGitSync (env : String → RunOutcome) (app : ApplicationSpec)
    (ghToken : String) : List String × Except String Unit :=
  let testCmd := testCmdOf app
  let fetchCmd := fetchCmdOf app ghToken
  match runCmd env testCmd none [] with
  | .error _ => gitSyncRecover env app ghToken [testCmd]
  | .ok _ =>
    match runCmd env fetchCmd (some (appDirOf app))
        (if ghToken ≠ "" then [ghToken] else []) with
    | .error _ =>
      gitSyncRecover env app ghToken
        [testCmd, finalCmd fetchCmd (some (appDirOf app))]
    | .ok _ => ([testCmd, finalCmd fetchCmd (some (appDirOf app))], .ok ())

/-- C10 (confirmed): when the app directory exists (probe succeeds) and the
fetch-and-hard-reset fails, deploy does not surface the fetch error: it
deletes the whole app directory with rm -rf, recreates the parent and
clones fresh, and — when those recovery commands succeed — the git-sync
step ends successfully, the fetch error having been swallowed. -/
theorem c10_fetch_failure_reclones (env : String → RunOutcome)
    (app : ApplicationSpec) (ghToken : String)
    (htest : (env (testCmdOf app)).exitCode = 0)
    (hfetch : (env (finalCmd (fetchCmdOf app ghToken)
      (some (appDirOf app)))).exitCode ≠ 0)
    (hrm : (env ("rm -rf " ++ appDirOf app)).exitCode = 0)
    (hmkdir : (env ("mkdir -p " ++ app.destination_path)).exitCode = 0)
    (hclone : (env (cloneCmdOf app ghToken)).exitCode = 0) :
    deployGitSync env app ghToken =
      ([testCmdOf app, finalCmd (fetchCmdOf app ghToken) (some (appDirOf app)),
        "rm -rf " ++ appDirOf app, "mkdir -p " ++ app.destination_path,
        cloneCmdOf app ghToken], .ok ()) := by
  rw [deployGitSync]
  simp only [finalCmd] at hfetch
  simp only [runCmd, runResult, finalCmd, htest]
  norm_num
  rw [if_neg hfetch]
  dsimp only
  rw [gitSyncRecover]
  simp only [runCmd, runResult, finalCmd, hrm, hmkdir, hclone]
  norm_num

/-- Concrete application of the C10 scenario. -/
def c10App : ApplicationSpec :=
  { name := "web", repo_url := "https://example.com/repo.git",
    runtime := .nodejs, build_config := {},
    service_config := { command := "npm start" } }

/-- Oracle for the C10 scenario: only the fetch command fails. -/
def c10Env : String → RunOutcome := fun c =>
  if c = finalCmd (fetchCmdOf c10App "") (some (appDirOf c10App)) then
    { exitCode := 128, out := "", err := "fatal: could not read from remote" }
  else { exitCode := 0, out := "", err := "" }

/-- C10 witness: the theorem applied to the concrete scenario in which only
the fetch fails. -/
theorem c10_witness :
    deployGitSync c10Env c10App "" =
      ([testCmdOf c10App,
        finalCmd (fetchCmdOf c10App "") (some (appDirOf c10App)),
        "rm -rf " ++ appDirOf c10App, "mkdir -p " ++ c10App.destination_path,
        cloneCmdOf c10App ""], .ok ()) :=
  c10_fetch_failure_reclones c10Env c10App "" (by decide) (by decide)
    (by decide) (by decide) (by decide)

/-! Combined nginx routing (ServerDeployer.configure_combined_nginx),
modelled structurally: the single generated site is summarized by the root
workload, the path-routed locations, the server names and the HTTPS flag. -/

/-- Python str.startswith at the character level. -/
def pyStartsWith (s pat : String) : Bool :=
  pat.data.isPrefixOf s.data

/-- Python str.endswith at the character level. -/
def pyEndsWith (s pat : String) : Bool :=
  List.isSuffixOf pat.data s.data

/-- Python str.strip at the character level. -/
def pyStrip (s : String) : String :=
  String.mk
    (((s.data.dropWhile Char.isWhitespace).reverse.dropWhile
      Char.isWhitespace).reverse)

/-- Embedding of _normalize_server_names: strip, drop empties, dedupe
preserving first occurrence. -/
def normalizeServerNames (server_names : List String) : List String :=
  server_names.foldl
    (fun names name =>
      let cleaned := pyStrip name
      if cleaned ≠ "" ∧ ¬ names.contains cleaned then names ++ [cleaned]
      else names)
    []

/-- Workload name contains "ui" after lowercasing. -/
def hasUiName (a : ApplicationSpec) : Bool :=
  strContainsS (pyToLower a.name) "ui"

/-- Workload name contains "api" after lowercasing. -/
def hasApiName (a : ApplicationSpec) : Bool :=
  strContainsS (pyToLower a.name) "api"

/-- Index of the first candidate whose name contains "ui" (the element
Python binds as root_app and later compares by identity). -/
def firstUiIdx : List ApplicationSpec → Option Nat
  | [] => none
  | a :: t => if hasUiName a then some 0 else (firstUiIdx t).map (· + 1)

/-- Structural summary of the single nginx site written by
configure_combined_nginx. -/
structure CombinedSite where
  root_name : String
  root_port : Int
  locations : List (String × String × Int)
  server_names : List String
  https_enabled : Bool
  deriving DecidableEq, Repr

/-- Location entry generated for one enumerated candidate: skipped for the
root element, otherwise a path prefixed route (with the defensive
leading/trailing-slash fixups of the source). -/
def locationEntry (rootIdx : Nat) (ia : Nat × ApplicationSpec) :
    Option (String × String × Int) :=
  if ia.1 = rootIdx then none
  else
    let app := ia.2
    let port := (app.service_config.ports.head?).getD 0
    let route0 := if hasApiName app then "/api/" else "/" ++ app.name ++ "/"
    let route1 := if pyStartsWith route0 "/" then route0 else "/" ++ route0
    let route2 := if pyEndsWith route1 "/" then route1 else route1 ++ "/"
    some (route2, app.name, port)

/-- Site built from the nonempty candidate list (c0 is candidates[0]). -/
def combinedSiteFor (c0 : ApplicationSpec)
    (candidates : List ApplicationSpec) : CombinedSite :=
  let rootIdx := (firstUiIdx candidates).getD 0
  let root_app := (candidates.get? rootIdx).getD c0
  { root_name := root_app.name
    root_port := (root_app.service_config.ports.head?).getD 0
    locations := candidates.enum.filterMap (locationEntry rootIdx)
    server_names := normalizeServerNames
      (candidates.foldl (fun acc a => acc ++ a.service_config.server_names) [])
    https_enabled := candidates.any (fun a => a.service_config.https) }

/-- Embedding of configure_combined_nginx: workloads without declared ports
are not candidates; with no candidate at all the function returns without
writing any site. -/
def configure_combined_nginx (apps : List ApplicationSpec) :
    Option CombinedSite :=
  match apps.filter (fun a => a.service_config.ports ≠ []) with
  | [] => none
  | c0 :: rest => some (combinedSiteFor c0 (c0 :: rest))

/-- Route the claim predicts for a non-root workload. -/
def claimRoute (a : ApplicationSpec) : String :=
  if hasApiName a then "/api/" else "/" ++ a.name ++ "/"

theorem firstUiIdx_of_find?_none {l : List ApplicationSpec}
    (h : l.find? hasUiName = none) : firstUiIdx l = none := by
  induction l with
  | nil => rfl
  | cons a t ih =>
    by_cases ha : hasUiName a
    · rw [List.find?_cons_of_pos _ ha] at h
      cases h
    · rw [List.find?_cons_of_neg _ ha] at h
      rw [firstUiIdx, if_neg ha, ih h]
      rfl

theorem firstUiIdx_of_find?_some {l : List ApplicationSpec}
    {a : ApplicationSpec} (h : l.find? hasUiName = some a) :
    ∃ i, firstUiIdx l = some i ∧ l.get? i = some a := by
  induction l with
  | nil => cases h
  | cons x t ih =>
    by_cases hx : hasUiName x
    · rw [List.find?_cons_of_pos _ hx] at h
      refine ⟨0, ?_, ?_⟩
      · rw [firstUiIdx, if_pos hx]
      · simpa using h
    · rw [List.find?_cons_of_neg _ hx] at h
      obtain ⟨i, h1, h2⟩ := ih h
      refine ⟨i + 1, ?_, ?_⟩
      · rw [firstUiIdx, if_neg hx, h1]
        rfl
      · simpa using h2

theorem pyStartsWith_slash (x : String) :
    pyStartsWith ("/" ++ x) "/" = true := by
  have h1 : ("/" ++ x).data = '/' :: x.data := by
    rw [strData_append]
    rfl
  rw [pyStartsWith, h1]
  show List.isPrefixOf ['/'] ('/' :: x.data) = true
  simp [List.isPrefixOf]

theorem pyEndsWith_slash (y : String) :
    pyEndsWith (y ++ "/") "/" = true := by
  have h1 : (y ++ "/").data = y.data ++ ['/'] := by
    rw [strData_append]
  rw [pyEndsWith, h1]
  show List.isSuffixOf ['/'] (y.data ++ ['/']) = true
  rw [List.isSuffixOf]
  simp [List.isPrefixOf, List.reverse_append]

theorem pyStartsWith_slash_assoc (a b : String) :
    pyStartsWith ("/" ++ a ++ b) "/" = true := by
  rw [pyStartsWith, strData_append, strData_append]
  show List.isPrefixOf ['/'] ((['/'] ++ a.data) ++ b.data) = true
  simp [List.isPrefixOf]

theorem locationEntry_eq_claimRoute (rootIdx : Nat)
    (ia : Nat × ApplicationSpec) :
    locationEntry rootIdx ia =
      if ia.1 = rootIdx then none
      else some (claimRoute ia.2, ia.2.name,
        (ia.2.service_config.ports.head?).getD 0) := by
  by_cases hi : ia.1 = rootIdx
  · rw [locationEntry, if_pos hi, if_pos hi]
  · simp only [locationEntry, if_neg hi]
    by_cases hapi : hasApiName ia.2
    · have h1 : pyStartsWith "/api/" "/" = true := by decide
      have h2 : pyEndsWith "/api/" "/" = true := by decide
      simp [hapi, claimRoute, h1, h2]
    · have h1 := pyStartsWith_slash_assoc ia.2.name "/"
      have h2 := pyEndsWith_slash ("/" ++ ia.2.name)
      simp [hapi, claimRoute, h1, h2]

/-- C5 (amended): in combined mode, among the workloads with at least one
declared port, the first whose lowercased name contains "ui" (or else the
first ported workload) serves the root of the single site, and every OTHER
ported workload is proxied at /api/ when its lowercased name contains
"api", otherwise at /<name>/; workloads with no declared port are not
routed at all. -/
theorem c5_combined_routing (apps : List ApplicationSpec)
    (h : apps.filter (fun a => a.service_config.ports ≠ []) ≠ []) :
    ∃ site, configure_combined_nginx apps = some site ∧
      some site.root_name =
        (((apps.filter (fun a => a.service_config.ports ≠ [])).find?
            hasUiName).orElse
          (fun _ =>
            (apps.filter (fun a => a.service_config.ports ≠ [])).head?)).map
          ApplicationSpec.name ∧
      site.locations =
        (apps.filter (fun a => a.service_config.ports ≠ [])).enum.filterMap
          (fun ia =>
            if ia.1 = (firstUiIdx
                (apps.filter (fun a => a.service_config.ports ≠ []))).getD 0
            then none
            else some (claimRoute ia.2, ia.2.name,
              (ia.2.service_config.ports.head?).getD 0)) := by
  cases hc : apps.filter (fun a => a.service_config.ports ≠ []) with
  | nil => exact absurd hc h
  | cons c0 rest =>
    have hcfg : configure_combined_nginx apps =
        some (combinedSiteFor c0 (c0 :: rest)) := by
      rw [configure_combined_nginx, hc]
    refine ⟨_, hcfg, ?_, ?_⟩
    · cases hf : (c0 :: rest).find? hasUiName with
      | none =>
        simp [combinedSiteFor, firstUiIdx_of_find?_none hf, Option.orElse]
      | some a =>
        obtain ⟨i, h1, h2⟩ := firstUiIdx_of_find?_some hf
        have h2' : (c0 :: rest)[i]? = some a := by
          rw [← List.get?_eq_getElem?]
          exact h2
        simp [combinedSiteFor, h1, h2', Option.orElse]
    · have hfun : locationEntry ((firstUiIdx (c0 :: rest)).getD 0) =
          (fun ia : Nat × ApplicationSpec =>
            if ia.1 = (firstUiIdx (c0 :: rest)).getD 0 then none
            else some (claimRoute ia.2, ia.2.name,
              (ia.2.service_config.ports.head?).getD 0)) :=
        funext (locationEntry_eq_claimRoute _)
      show (c0 :: rest).enum.filterMap
          (locationEntry ((firstUiIdx (c0 :: rest)).getD 0)) = _
      rw [hfun]

/-- Workload named with a "ui" suffix but with no declared port. -/
def c5UiApp : ApplicationSpec :=
  { name := "dashboard-ui", repo_url := "r1", runtime := .nodejs,
    build_config := {}, service_config := { command := "run-ui" } }

/-- Ported workload without "ui" in its name. -/
def c5WebApp : ApplicationSpec :=
  { name := "web", repo_url := "r2", runtime := .python,
    build_config := {},
    service_config := { command := "run-web", ports := [3000] } }

/-- Ported workload whose name contains "api". -/
def c5ApiApp : ApplicationSpec :=
  { name := "backend-api", repo_url := "r3", runtime := .go,
    build_config := {},
    service_config := { command := "run-api", ports := [8000] } }

/-- Second ported workload, whose name contains "ui". -/
def c5UiApp2 : ApplicationSpec :=
  { name := "front-ui", repo_url := "r4", runtime := .nodejs,
    build_config := {},
    service_config := { command := "run", ports := [3000] } }

/-- C5 counterexample: the workload list [dashboard-ui, web] is non-empty
and dashboard-ui's name contains "ui", yet — because dashboard-ui declares
no port — the single site serves "web" at the root and routes dashboard-ui
nowhere (no location at all), contradicting the claim that the
"ui"-named workload of every non-empty workload list serves the root. -/
theorem c5_counterexample :
    ([c5UiApp, c5WebApp] : List ApplicationSpec) ≠ [] ∧
    hasUiName c5UiApp = true ∧
    hasUiName c5WebApp = false ∧
    ∃ site, configure_combined_nginx [c5UiApp, c5WebApp] = some site ∧
      site.root_name = "web" ∧ site.root_name ≠ c5UiApp.name ∧
      site.locations = [] := by
  refine ⟨by decide, by decide, by decide, ?_⟩
  refine ⟨_, rfl, by decide, by decide, by decide⟩

/-- C5 witness: the amended theorem applied to two ported workloads
[backend-api, front-ui] — the "ui" one serves the root even though it is
second, and backend-api is routed at /api/. -/
theorem c5_witness :
    ∃ site, configure_combined_nginx [c5ApiApp, c5UiApp2] = some site ∧
      some site.root_name =
        ((([c5ApiApp, c5UiApp2].filter
            (fun a => a.service_config.ports ≠ [])).find? hasUiName).orElse
          (fun _ =>
            ([c5ApiApp, c5UiApp2].filter
              (fun a => a.service_config.ports ≠ [])).head?)).map
          ApplicationSpec.name ∧
      site.locations =
        ([c5ApiApp, c5UiApp2].filter
            (fun a => a.service_config.ports ≠ [])).enum.filterMap
          (fun ia =>
            if ia.1 = (firstUiIdx
                ([c5ApiApp, c5UiApp2].filter
                  (fun a => a.service_config.ports ≠ []))).getD 0
            then none
            else some (claimRoute ia.2, ia.2.name,
              (ia.2.service_config.ports.head?).getD 0)) :=
  c5_combined_routing [c5ApiApp, c5UiApp2] (by decide)

/-! Schema validation of DesiredStateSpec (pydantic model_validate on
parsed JSON, models.py), used by apply_plan. -/

/-- Read a JSON integer. -/
def asInt : JVal → Option Int
  | .num n => some n
  | _ => none

/-- Read a JSON boolean. -/
def asBool : JVal → Option Bool
  | .bool b => some b
  | _ => none

/-- Read a JSON array of strings. -/
def asStrList : JVal → Option (List String)
  | .arr xs => optMapList asStr xs
  | _ => none

/-- Read a JSON array of integers. -/
def asIntList : JVal → Option (List Int)
  | .arr xs => optMapList asInt xs
  | _ => none

/-- Required string field. -/
def reqStr (kvs : List (String × JVal)) (k : String) : Option String :=
  (dictGet kvs k).bind asStr

/-- String field with a default. -/
def strFieldD (kvs : List (String × JVal)) (k d : String) : Option String :=
  match dictGet kvs k with
  | none => some d
  | some v => asStr v

/-- Boolean field with a default. -/
def boolFieldD (kvs : List (String × JVal)) (k : String) (d : Bool) :
    Option Bool :=
  match dictGet kvs k with
  | none => some d
  | some v => asBool v

/-- String-list field defaulting to the given list. -/
def strListFieldD (kvs : List (String × JVal)) (k : String)
    (d : List String) : Option (List String) :=
  match dictGet kvs k with
  | none => some d
  | some v => asStrList v

/-- Integer-list field defaulting to empty. -/
def intListFieldD (kvs : List (String × JVal)) (k : String) :
    Option (List Int) :=
  match dictGet kvs k with
  | none => some []
  | some v => asIntList v

/-- List field of sub-models defaulting to empty. -/
def listFieldD {α : Type} (f : JVal → Option α)
    (kvs : List (String × JVal)) (k : String) : Option (List α) :=
  match dictGet kvs k with
  | none => some []
  | some (.arr xs) => optMapList f xs
  | some _ => none

/-- Optional sub-model field (null and absence both mean none). -/
def optField {α : Type} (f : JVal → Option α)
    (kvs : List (String × JVal)) (k : String) : Option (Option α) :=
  match dictGet kvs k with
  | none => some none
  | some .null => some none
  | some v => (f v).map some

/-- Optional integer field. -/
def optIntField (kvs : List (String × JVal)) (k : String) :
    Option (Option Int) :=
  optField asInt kvs k

/-- Parse a RuntimeType from its serialized enum value. -/
def parseRuntimeType : String → Option RuntimeType
  | "docker" => some .docker
  | "nodejs" => some .nodejs
  | "python" => some .python
  | "static" => some .staticFiles
  | "go" => some .go
  | _ => none

/-- Validation of a BuildSpec. -/
def decodeBuildSpec (j : JVal) : Option BuildSpec := do
  match j with
  | .obj kvs =>
    let ic ← optStrField kvs "install_command"
    let bc ← optStrField kvs "build_command"
    let sp ← strListFieldD kvs "system_packages" []
    pure { install_command := ic, build_command := bc,
           system_packages := sp }
  | _ => none

/-- Validation of a ServiceSpec. -/
def decodeServiceSpec (j : JVal) : Option ServiceSpec := do
  match j with
  | .obj kvs =>
    let cmd ← reqStr kvs "command"
    let envMap ← strMapField kvs "environment"
    let ef ← optStrField kvs "environment_file"
    let efu ← optStrField kvs "environment_file_upload"
    let ports ← intListFieldD kvs "ports"
    let sn ← strListFieldD kvs "server_names" []
    let https ← boolFieldD kvs "https" false
    pure { command := cmd, environment := envMap, environment_file := ef,
           environment_file_upload := efu, ports := ports,
           server_names := sn, https := https }
  | _ => none

/-- Validation of an ApplicationSpec. -/
def decodeApplicationSpec (j : JVal) : Option ApplicationSpec := do
  match j with
  | .obj kvs =>
    let name ← reqStr kvs "name"
    let repo ← reqStr kvs "repo_url"
    let branch ← strFieldD kvs "branch" "main"
    let rtStr ← reqStr kvs "runtime"
    let rt ← parseRuntimeType rtStr
    let bc ← (dictGet kvs "build_config").bind decodeBuildSpec
    let sc ← (dictGet kvs "service_config").bind decodeServiceSpec
    let dp ← strFieldD kvs "destination_path" "/opt/apps"
    pure { name := name, repo_url := repo, branch := branch, runtime := rt,
           build_config := bc, service_config := sc,
           destination_path := dp }
  | _ => none

/-- Validation of a NetworkSpec. -/
def decodeNetworkSpec (j : JVal) : Option NetworkSpec := do
  match j with
  | .obj kvs =>
    let name ← reqStr kvs "name"
    let cidr ← reqStr kvs "cidr"
    pure { name := name, cidr := cidr }
  | _ => none

/-- Validation of an UnattendedUpgradesPolicy. -/
def decodeUUPolicy (j : JVal) : Option UnattendedUpgradesPolicy := do
  match j with
  | .obj kvs =>
    let enabled ← boolFieldD kvs "enabled" true
    let ao ← strListFieldD kvs "allowed_origins"
      ({} : UnattendedUpgradesPolicy).allowed_origins
    let ar ← boolFieldD kvs "auto_reboot" false
    let art ← strFieldD kvs "auto_reboot_time" "04:00"
    pure { enabled := enabled, allowed_origins := ao, auto_reboot := ar,
           auto_reboot_time := art }
  | _ => none

/-- Validation of a MaintenancePolicy. -/
def decodeMaintenancePolicy (j : JVal) : Option MaintenancePolicy := do
  match j with
  | .obj kvs =>
    let uu ←
      match dictGet kvs "unattended_upgrades" with
      | none => some ({} : UnattendedUpgradesPolicy)
      | some v => decodeUUPolicy v
    pure { unattended_upgrades := uu }
  | _ => none

/-- Validation of an InstanceSpec. -/
def decodeInstanceSpec (j : JVal) : Option InstanceSpec := do
  match j with
  | .obj kvs =>
    let name ← reqStr kvs "name"
    let size ← reqStr kvs "size"
    let network ← reqStr kvs "network"
    let region ← optStrField kvs "region"
    let labels ← strMapField kvs "labels"
    let workloads ← listFieldD decodeApplicationSpec kvs "workloads"
    let maintenance ← optField decodeMaintenancePolicy kvs "maintenance"
    pure { name := name, size := size, network := network, region := region,
           labels := labels, workloads := workloads,
           maintenance := maintenance }
  | _ => none

/-- Validation of a LoadBalancerPortSpec. -/
def decodeLoadBalancerPortSpec (j : JVal) : Option LoadBalancerPortSpec := do
  match j with
  | .obj kvs =>
    let port ← (dictGet kvs "port").bind asInt
    let protocol ← reqStr kvs "protocol"
    pure { port := port, protocol := protocol }
  | _ => none

/-- Validation of a LoadBalancerTargetSpec. -/
def decodeLoadBalancerTargetSpec (j : JVal) :
    Option LoadBalancerTargetSpec := do
  match j with
  | .obj kvs =>
    let ty ← reqStr kvs "type"
    let sel ← reqStr kvs "selector"
    pure { type := ty, selector := sel }
  | _ => none

/-- Validation of a LoadBalancerSpec. -/
def decodeLoadBalancerSpec (j : JVal) : Option LoadBalancerSpec := do
  match j with
  | .obj kvs =>
    let name ← reqStr kvs "name"
    let network ← reqStr kvs "network"
    let ports ← listFieldD decodeLoadBalancerPortSpec kvs "ports"
    let targets ← listFieldD decodeLoadBalancerTargetSpec kvs "targets"
    pure { name := name, network := network, ports := ports,
           targets := targets }
  | _ => none

/-- Validation of a FirewallRuleSpec. -/
def decodeFirewallRuleSpec (j : JVal) : Option FirewallRuleSpec := do
  match j with
  | .obj kvs =>
    let dir ← reqStr kvs "direction"
    let protocol ← reqStr kvs "protocol"
    let port ← optStrField kvs "port"
    let cidr ← optStrField kvs "cidr"
    pure { direction := dir, protocol := protocol, port := port,
           cidr := cidr }
  | _ => none

/-- Validation of a FirewallTargetSpec. -/
def decodeFirewallTargetSpec (j : JVal) : Option FirewallTargetSpec := do
  match j with
  | .obj kvs =>
    let ty ← reqStr kvs "type"
    let sel ← reqStr kvs "selector"
    pure { type := ty, selector := sel }
  | _ => none

/-- Validation of a FirewallSpec. -/
def decodeFirewallSpec (j : JVal) : Option FirewallSpec := do
  match j with
  | .obj kvs =>
    let name ← reqStr kvs "name"
    let rules ← listFieldD decodeFirewallRuleSpec kvs "rules"
    let targets ← listFieldD decodeFirewallTargetSpec kvs "targets"
    pure { name := name, rules := rules, targets := targets }
  | _ => none

/-- Validation of a DnsRecordSpec. -/
def decodeDnsRecordSpec (j : JVal) : Option DnsRecordSpec := do
  match j with
  | .obj kvs =>
    let zone ← reqStr kvs "zone"
    let name ← reqStr kvs "name"
    let ty ← reqStr kvs "type"
    let target ← reqStr kvs "target"
    pure { zone := zone, name := name, type := ty, target := target }
  | _ => none

/-- Validation of a ContainerPortSpec. -/
def decodeContainerPortSpec (j : JVal) : Option ContainerPortSpec := do
  match j with
  | .obj kvs =>
    let cp ← (dictGet kvs "container_port").bind asInt
    let hp ← optIntField kvs "host_port"
    pure { container_port := cp, host_port := hp }
  | _ => none

/-- Validation of a ContainerVolumeSpec. -/
def decodeContainerVolumeSpec (j : JVal) : Option ContainerVolumeSpec := do
  match j with
  | .obj kvs =>
    let hp ← reqStr kvs "host_path"
    let cp ← reqStr kvs "container_path"
    pure { host_path := hp, container_path := cp }
  | _ => none

/-- Validation of a ContainerEnvVar. -/
def decodeContainerEnvVar (j : JVal) : Option ContainerEnvVar := do
  match j with
  | .obj kvs =>
    let name ← reqStr kvs "name"
    let value ← reqStr kvs "value"
    pure { name := name, value := value }
  | _ => none

/-- Validation of a ContainerSpec. -/
def decodeContainerSpec (j : JVal) : Option ContainerSpec := do
  match j with
  | .obj kvs =>
    let name ← reqStr kvs "name"
    let image ← reqStr kvs "image"
    let hs ← reqStr kvs "host_selector"
    let ports ← listFieldD decodeContainerPortSpec kvs "ports"
    let env ← listFieldD decodeContainerEnvVar kvs "env"
    let volumes ← listFieldD decodeContainerVolumeSpec kvs "volumes"
    let rp ← strFieldD kvs "restart_policy" "always"
    pure { name := name, image := image, host_selector := hs,
           ports := ports, env := env, volumes := volumes,
           restart_policy := rp }
  | _ => none

/-- Validation of a DesiredStateSpec (DesiredStateSpec.model_validate). -/
def decodeDesiredStateSpec (j : JVal) : Option DesiredStateSpec := do
  match j with
  | .obj kvs =>
    let provider ← reqStr kvs "provider"
    let region ← optStrField kvs "region"
    let networks ← listFieldD decodeNetworkSpec kvs "networks"
    let instances ← listFieldD decodeInstanceSpec kvs "instances"
    let lbs ← listFieldD decodeLoadBalancerSpec kvs "load_balancers"
    let fws ← listFieldD decodeFirewallSpec kvs "firewalls"
    let dns ← listFieldD decodeDnsRecordSpec kvs "dns_records"
    let cts ← listFieldD decodeContainerSpec kvs "containers"
    pure { provider := provider, region := region, networks := networks,
           instances := instances, load_balancers := lbs, firewalls := fws,
           dns_records := dns, containers := cts }
  | _ => none

/-! Apply orchestrator (core/apply.py, apply_plan). External effects are
reified as an event trace; external command results come from an
environment record. -/

/-- Python truthiness of a parsed JSON value. -/
def truthyJ : JVal → Bool
  | .null => false
  | .bool b => b
  | .num n => n ≠ 0
  | .str s => s ≠ ""
  | .arr [] => false
  | .arr (_ :: _) => true
  | .obj [] => false
  | .obj (_ :: _) => true

/-- Python dict.get(k, d) on a JSON value: attribute error when the value
is not an object. -/
def pyGetD (j : JVal) (k : String) (d : JVal) : Except Unit JVal :=
  match j with
  | .obj kvs => .ok ((dictGet kvs k).getD d)
  | _ => .error ()

/-- Externally observable side effects of apply_plan, in program order. -/
inductive ApplyEvent where
  | wroteSpec (spec : DesiredStateSpec)
  | generatedTf (spec : DesiredStateSpec)
  | fetchedSshKey
  | ranInit
  | ranApply
  | readOutputs
  | deployedWorkload (instName appName : String) (combined : Bool)
  | configuredCombined (instName : String)
  deriving DecidableEq, Repr

/-- Error classes apply_plan can raise. -/
inductive ApplyErr where
  | fileNotFound (msg : String)
  | valueError (msg : String)
  | validationError
  | attributeError
  | calledProcessError (code : Int)
  deriving DecidableEq, Repr

/-- Errors of Python class ValueError (pydantic ValidationError is a
ValueError subclass). -/
def ApplyErr.isValueErrorClass : ApplyErr → Bool
  | .valueError _ => true
  | .validationError => true
  | _ => false

/-- External-world inputs of one apply_plan invocation. -/
structure ApplyEnv where
  planExists : Bool
  planData : JVal
  tfFound : Bool
  initExit : Int
  applyExit : Int
  tfOutputs : JVal
  nginxMode : String

/-- Per-instance deploy loop at the end of apply_plan: instances without a
truthy IP or with no workloads are skipped; combined mode deploys every
workload without per-app nginx and then writes one combined site. -/
def deployLoop (mode : String) (serverIps : JVal) :
    List InstanceSpec → List ApplyEvent × Option ApplyErr
  | [] => ([], none)
  | inst :: rest =>
    match serverIps with
    | .obj kvs =>
      let ip := (dictGet kvs inst.name).getD .null
      if ¬ truthyJ ip ∨ inst.workloads = [] then
        deployLoop mode serverIps rest
      else
        let evs :=
          if mode = "combined" ∨ mode = "single" ∨ mode = "shared" then
            inst.workloads.map
              (fun w => ApplyEvent.deployedWorkload inst.name w.name true) ++
              [ApplyEvent.configuredCombined inst.name]
          else
            inst.workloads.map
              (fun w => ApplyEvent.deployedWorkload inst.name w.name false)
        let r := deployLoop mode serverIps rest
        (evs ++ r.1, r.2)
    | _ => ([], some .attributeError)

/-- Embedding of apply_plan: validation, spec persistence, code generation,
SSH key acquisition, provisioning-tool init (check=True raises
CalledProcessError on a non-zero exit) and apply (non-zero exit returned
unchanged), output read-back, and the deploy loop. -/
def apply_plan (env : ApplyEnv) (autoApprove : Bool) :
    List ApplyEvent × Except ApplyErr Int :=
  if ¬ env.planExists then
    ([], .error (.fileNotFound "Plan file not found"))
  else
    match env.planData with
    | .obj kvs =>
      let newSpecVal := (dictGet kvs "new_spec").getD .null
      if ¬ truthyJ newSpecVal then
        ([], .error (.valueError "Plan does not contain new_spec"))
      else
        match decodeDesiredStateSpec newSpecVal with
        | none => ([], .error .validationError)
        | some spec =>
          if spec.provider ≠ "hetzner" then
            ([ApplyEvent.wroteSpec spec],
              .error (.valueError ("Unknown provider: " ++ spec.provider)))
          else if ¬ env.tfFound then
            ([ApplyEvent.wroteSpec spec, ApplyEvent.generatedTf spec,
              ApplyEvent.fetchedSshKey],
              .error (.fileNotFound "Terraform binary not found in PATH"))
          else if env.initExit ≠ 0 then
            ([ApplyEvent.wroteSpec spec, ApplyEvent.generatedTf spec,
              ApplyEvent.fetchedSshKey, ApplyEvent.ranInit],
              .error (.calledProcessError env.initExit))
          else if env.applyExit ≠ 0 then
            ([ApplyEvent.wroteSpec spec, ApplyEvent.generatedTf spec,
              ApplyEvent.fetchedSshKey, ApplyEvent.ranInit,
              ApplyEvent.ranApply],
              .ok env.applyExit)
          else
            let pre := [ApplyEvent.wroteSpec spec, ApplyEvent.generatedTf spec,
              ApplyEvent.fetchedSshKey, ApplyEvent.ranInit,
              ApplyEvent.ranApply, ApplyEvent.readOutputs]
            match pyGetD env.tfOutputs "server_ips" (.obj []) with
            | .error _ => (pre, .error .attributeError)
            | .ok sipsOuter =>
              match pyGetD sipsOuter "value" (.obj []) with
              | .error _ => (pre, .error .attributeError)
              | .ok serverIps =>
                let mode := pyToLower (pyStrip env.nginxMode)
                let r := deployLoop mode serverIps spec.instances
                match r.2 with
                | some e => (pre ++ r.1, .error e)
                | none => (pre ++ r.1, .ok 0)
    | _ => ([], .error .attributeError)

/-- C4 (confirmed): when the plan object's new_spec is absent (or falsy) or
fails DesiredStateSpec schema validation, apply_plan raises a
ValueError-class error (ValueError or pydantic ValidationError) and
produces no side effect at all: no spec.json write, no Terraform
generation, nothing else. -/
theorem c4_invalid_new_spec_no_writes (env : ApplyEnv) (autoApprove : Bool)
    (kvs : List (String × JVal))
    (hplan : env.planExists = true)
    (hobj : env.planData = .obj kvs)
    (hbad : truthyJ ((dictGet kvs "new_spec").getD .null) = false ∨
      decodeDesiredStateSpec ((dictGet kvs "new_spec").getD .null) = none) :
    ∃ e, apply_plan env autoApprove = ([], .error e) ∧
      e.isValueErrorClass = true := by
  by_cases hb0 : truthyJ ((dictGet kvs "new_spec").getD .null) = true
  · have hdec : decodeDesiredStateSpec ((dictGet kvs "new_spec").getD .null)
        = none := by
      rcases hbad with hb | hb
      · rw [hb0] at hb
        cases hb
      · exact hb
    refine ⟨.validationError, ?_, rfl⟩
    simp [apply_plan, hplan, hobj, hb0, hdec]
  · refine ⟨.valueError "Plan does not contain new_spec", ?_, rfl⟩
    simp [apply_plan, hplan, hobj, hb0]

/-- Plan whose new_spec is present but fails schema validation: provider
is a number rather than a string. -/
def c4Env : ApplyEnv :=
  { planExists := true,
    planData := .obj [("new_spec", .obj [("provider", .num 3)])],
    tfFound := true, initExit := 0, applyExit := 0,
    tfOutputs := .obj [], nginxMode := "per-app" }

/-- C4 witness: the theorem applied to a concrete plan whose new_spec
fails validation. -/
theorem c4_witness :
    ∃ e, apply_plan c4Env false = ([], .error e) ∧
      e.isValueErrorClass = true :=
  c4_invalid_new_spec_no_writes c4Env false
    [("new_spec", .obj [("provider", .num 3)])] rfl rfl (Or.inr rfl)

/-- C3 (amended): given a valid plan for the hetzner provider with the
provisioning binary found, a non-zero exit from terraform init raises
CalledProcessError (check=True) — the code is NOT returned — and a
non-zero exit from terraform apply is returned unchanged; in both cases
execution stops right after the failing step: no outputs are read and no
workload is deployed. -/
theorem c3_nonzero_exit_aborts (env : ApplyEnv) (autoApprove : Bool)
    (kvs : List (String × JVal)) (spec : DesiredStateSpec)
    (hplan : env.planExists = true)
    (hobj : env.planData = .obj kvs)
    (htruthy : truthyJ ((dictGet kvs "new_spec").getD .null) = true)
    (hdec : decodeDesiredStateSpec ((dictGet kvs "new_spec").getD .null) =
      some spec)
    (hprov : spec.provider = "hetzner")
    (htf : env.tfFound = true) :
    (env.initExit ≠ 0 →
      apply_plan env autoApprove =
        ([.wroteSpec spec, .generatedTf spec, .fetchedSshKey, .ranInit],
          .error (.calledProcessError env.initExit))) ∧
    (env.initExit = 0 → env.applyExit ≠ 0 →
      apply_plan env autoApprove =
        ([.wroteSpec spec, .generatedTf spec, .fetchedSshKey, .ranInit,
          .ranApply], .ok env.applyExit)) := by
  constructor
  · intro hinit
    simp [apply_plan, hplan, hobj, htruthy, hdec, hprov, htf, hinit]
  · intro hinit happly
    simp [apply_plan, hplan, hobj, htruthy, hdec, hprov, htf, hinit, happly]

/-- Minimal valid hetzner plan. -/
def c3Plan : JVal :=
  .obj [("new_spec", .obj [("provider", .str "hetzner")])]

/-- Spec decoded from c3Plan. -/
def c3Spec : DesiredStateSpec := { provider := "hetzner" }

/-- Environment in which terraform init exits 2. -/
def c3Env : ApplyEnv :=
  { planExists := true, planData := c3Plan, tfFound := true,
    initExit := 2, applyExit := 0, tfOutputs := .obj [],
    nginxMode := "per-app" }

/-- C3 counterexample: with a valid plan and terraform init exiting 2,
apply_plan does not return 2 (or any exit code) to the caller — it raises
CalledProcessError, because init runs under subprocess.run(check=True).
Only the apply step's non-zero code is returned unchanged. -/
theorem c3_counterexample :
    c3Env.initExit = 2 ∧
    (apply_plan c3Env false).2 = .error (.calledProcessError 2) ∧
    ∀ code : Int, (apply_plan c3Env false).2 ≠ .ok code := by
  have h : (apply_plan c3Env false).2 = .error (.calledProcessError 2) := by
    rfl
  exact ⟨rfl, h, fun code => by simp [h]⟩

/-- C3 witness: the amended theorem applied to the concrete environment in
which init exits 2. -/
theorem c3_witness :
    (c3Env.initExit ≠ 0 →
      apply_plan c3Env false =
        ([.wroteSpec c3Spec, .generatedTf c3Spec, .fetchedSshKey, .ranInit],
          .error (.calledProcessError c3Env.initExit))) ∧
    (c3Env.initExit = 0 → c3Env.applyExit ≠ 0 →
      apply_plan c3Env false =
        ([.wroteSpec c3Spec, .generatedTf c3Spec, .fetchedSshKey, .ranInit,
          .ranApply], .ok c3Env.applyExit)) :=
  c3_nonzero_exit_aborts c3Env false
    [("new_spec", .obj [("provider", .str "hetzner")])] c3Spec rfl rfl
    (by decide) (by decide) rfl rfl

end Cloudhand
